import Mathlib

/-! Verification development for the session core of moonlight-qt
(`app/streaming/session.cpp`). The C++ code is shallowly embedded:
pure logic becomes Lean functions, the external decoder/audio probes
become oracle fields of `ProbeEnv`, the process-wide admission
semaphore becomes a small transition system, and the branching of
`Session::exec` becomes an explicit enumeration of its return paths. -/

namespace Moonlight

/-! Constants from Limelight.h (moonlight-common-c) referenced by session.cpp. -/

def DR_OK : Int := 0

def DR_NEED_IDR : Int := -1

def VIDEO_FORMAT_H264 : Nat := 0x0001

def VIDEO_FORMAT_H265 : Nat := 0x0100

def VIDEO_FORMAT_H265_MAIN10 : Nat := 0x0200

def AUDIO_CONFIGURATION_STEREO : Nat := 0

def AUDIO_CONFIGURATION_51_SURROUND : Nat := 1

def STREAM_CFG_AUTO : Nat := 2

def MAX_SLICES : Nat := 4

def CAPABILITY_SLICES_PER_FRAME (x : Nat) : Nat := x <<< 24

/-! Preference enumerations from StreamingPreferences. -/

/-- StreamingPreferences::VideoDecoderSelection. -/
inductive VDS where
  | auto
  | forceHardware
  | forceSoftware
deriving DecidableEq

/-- StreamingPreferences::VideoCodecConfig. -/
inductive VCC where
  | auto
  | forceH264
  | forceHevc
  | forceHevcHdr
deriving DecidableEq

/-- StreamingPreferences::AudioConfig. -/
inductive AC where
  | stereo
  | surround51
deriving DecidableEq

/-- The fields of StreamingPreferences read by session.cpp. -/
structure StreamingPreferences where
  width : Nat
  height : Nat
  fps : Nat
  bitrateKbps : Nat
  videoDecoderSelection : VDS
  videoCodecConfig : VCC
  audioConfig : AC
  unsupportedFps : Bool
  enableVsync : Bool
  framePacing : Bool
  quitAppAfter : Bool
deriving DecidableEq

/-- The fields of NvComputer read by Session's validation code. -/
structure NvComputer where
  gfeVersion : List Char
  maxLumaPixelsHEVC : Nat
  serverCodecModeSupport : Nat
deriving DecidableEq

/-- The fields of NvApp read by Session's validation code. -/
structure NvApp where
  hdrSupported : Bool
deriving DecidableEq

/-! Decoder selection (Session::chooseDecoder and the probes built on it).
A candidate decoder is summarised by whether `initialize` succeeds, what
`isHardwareAccelerated` returns and what `getDecoderCapabilities` returns. -/

/-- One compiled-in decoder implementation as observed by chooseDecoder. -/
structure DecoderCandidate where
  initOk : Bool
  hwAccelerated : Bool
  caps : Nat
deriving DecidableEq

/-- Session::chooseDecoder: try each candidate in priority order and keep
the first whose `initialize` succeeds; report failure if every candidate
fails. -/
def chooseDecoder (cands : List DecoderCandidate) : Option DecoderCandidate :=
  cands.find? (fun c => c.initOk)

/-- External environment of the validation code: the decoder candidates
available for each probe parameter set (vds, videoFormat, width, height,
frameRate), the audio device test, and the gamepad mapping query. The
probes pass fixed vsync/framePacing/testOnly flags, which do not appear
as oracle parameters. -/
structure ProbeEnv where
  candidates : VDS → Nat → Nat → Nat → Nat → List DecoderCandidate
  testAudio : Nat → Bool
  hasUnmappedGamepads : Bool

/-- Session::isHardwareDecodeAvailable: false on total probe failure,
else the chosen decoder's isHardwareAccelerated. -/
def isHardwareDecodeAvailable (env : ProbeEnv) (vds : VDS) (videoFormat w h fps : Nat) : Bool :=
  match chooseDecoder (env.candidates vds videoFormat w h fps) with
  | none => false
  | some d => d.hwAccelerated

/-- Session::getDecoderCapabilities: the C++ returns `false` (the int 0)
when every candidate decoder fails to initialize, else the chosen
decoder's capability bitmask. -/
def getDecoderCapabilities (cands : List DecoderCandidate) : Nat :=
  match chooseDecoder cands with
  | none => 0
  | some d => d.caps

/-- The slice capability flags Session::initialize sets before probing
(`CAPABILITY_SLICES_PER_FRAME(qMin(MAX_SLICES, SDL_GetCPUCount()))`). -/
def baseVideoCapabilities (cpuCount : Nat) : Nat :=
  CAPABILITY_SLICES_PER_FRAME (min MAX_SLICES cpuCount)

/-- m_VideoCallbacks.capabilities after Session::initialize ORs in the
probed decoder capabilities. -/
def videoCapabilitiesAfterProbe (cpuCount : Nat) (cands : List DecoderCandidate) : Nat :=
  baseVideoCapabilities cpuCount ||| getDecoderCapabilities cands

/-! Decoder hot-swap controller state (Session::drSubmitDecodeUnit). -/

/-- The state drSubmitDecodeUnit reads: whether m_DecoderLock is
currently held by another thread (the swap/teardown code), the
m_NeedsIdr flag, and the installed decoder, whose submitDecodeUnit is a
function from the decode unit to a result code. -/
structure DecoderHotSwapState where
  decoderLockHeldElsewhere : Bool
  needsIdr : Bool
  videoDecoder : Option (Nat → Int)

/-- Result of one drSubmitDecodeUnit call: the returned code, the state
left behind, and whether the decoder was invoked. -/
structure SubmitOutcome where
  result : Int
  state : DecoderHotSwapState
  decoderInvoked : Bool

/-- Session::drSubmitDecodeUnit: try-lock m_DecoderLock; on failure
return DR_OK untouched; otherwise service the needs-IDR flag, the
installed decoder, or the empty slot, unlocking before every return. -/
def drSubmitDecodeUnit (s : DecoderHotSwapState) (du : Nat) : SubmitOutcome :=
  if s.decoderLockHeldElsewhere then
    { result := DR_OK, state := s, decoderInvoked := false }
  else if s.needsIdr then
    { result := DR_NEED_IDR, state := { s with needsIdr := false }, decoderInvoked := false }
  else
    match s.videoDecoder with
    | some dec => { result := dec du, state := s, decoderInvoked := true }
    | none => { result := DR_OK, state := s, decoderInvoked := false }

/-- Lock operations drSubmitDecodeUnit performs on m_DecoderLock. -/
inductive DecoderLockEvent where
  | tryLockOk
  | tryLockFail
  | unlock
deriving DecidableEq

/-- The sequence of m_DecoderLock operations performed by one
drSubmitDecodeUnit call: a failed try-lock, or a successful try-lock
followed by an unlock on every control path. -/
def drSubmitLockTrace (s : DecoderHotSwapState) : List DecoderLockEvent :=
  if s.decoderLockHeldElsewhere then [DecoderLockEvent.tryLockFail]
  else [DecoderLockEvent.tryLockOk, DecoderLockEvent.unlock]

/-! Input-handler spinlock discipline (Session::clRumble and the
teardown in Session::exec). -/

/-- The two SDL_SpinLock fields of Session. -/
inductive SessionLock where
  | decoderLock
  | inputHandlerLock
deriving DecidableEq

/-- The lock clRumble acquires (m_InputHandlerLock). -/
def clRumbleLockUsed : SessionLock := SessionLock.inputHandlerLock

/-- The lock Session::exec holds while deleting m_InputHandler. -/
def inputTeardownLockUsed : SessionLock := SessionLock.inputHandlerLock

/-- The m_InputHandler slot; a handler is identified by a number. -/
structure InputHandlerSlot where
  inputHandler : Option Nat
deriving DecidableEq

/-- Result of one clRumble call: to which handler (if any) the rumble
parameters were forwarded, and the slot state afterwards. -/
structure RumbleOutcome where
  forwarded : Option (Nat × Nat × Nat × Nat)
  slot : InputHandlerSlot
deriving DecidableEq

/-- Session::clRumble: under m_InputHandlerLock, forward the rumble to
the installed handler, or silently do nothing if the handler slot is
empty. -/
def clRumble (s : InputHandlerSlot) (controllerNumber lowFreqMotor highFreqMotor : Nat) :
    RumbleOutcome :=
  match s.inputHandler with
  | some h => { forwarded := some (h, controllerNumber, lowFreqMotor, highFreqMotor), slot := s }
  | none => { forwarded := none, slot := s }

/-- The input-handler teardown in Session::exec: under
m_InputHandlerLock, delete the handler and null the slot. -/
def inputHandlerTeardown (_ : InputHandlerSlot) : InputHandlerSlot :=
  { inputHandler := none }

/-- Spinlock acquire/release events. -/
inductive SpinLockEvent where
  | lockAcquire (l : SessionLock)
  | lockRelease (l : SessionLock)
deriving DecidableEq

/-- Lock operations of one clRumble call: acquire m_InputHandlerLock,
then release it before returning (both branches). -/
def clRumbleTrace : List SpinLockEvent :=
  [SpinLockEvent.lockAcquire clRumbleLockUsed, SpinLockEvent.lockRelease clRumbleLockUsed]

/-- Lock operations of the input-handler teardown in Session::exec. -/
def inputTeardownTrace : List SpinLockEvent :=
  [SpinLockEvent.lockAcquire inputTeardownLockUsed, SpinLockEvent.lockRelease inputTeardownLockUsed]

/-! Process-wide admission (s_ActiveSessionSemaphore / s_ActiveSession),
as a transition system. A step either atomically performs
`s_ActiveSessionSemaphore.acquire(); s_ActiveSession = this` (only
possible while a token is available) or runs a
DeferredSessionCleanupTask destructor, which removes one active session
and releases the token. -/

/-- Tokens held by the admission semaphore plus the sessions that have
acquired it and whose cleanup has not completed. -/
structure AdmissionState where
  tokens : Nat
  active : List Nat
deriving DecidableEq

/-- The two admission-relevant transitions of session.cpp. -/
inductive AdmissionStep : AdmissionState → AdmissionState → Prop where
  | acquireAndActivate (s : AdmissionState) (sid : Nat) (h : 1 ≤ s.tokens) :
      AdmissionStep s ⟨s.tokens - 1, sid :: s.active⟩
  | cleanupDestroyRelease (s : AdmissionState) (sid : Nat) (h : sid ∈ s.active) :
      AdmissionStep s ⟨s.tokens + 1, s.active.erase sid⟩

/-- QSemaphore Session::s_ActiveSessionSemaphore(1) with no session yet. -/
def initialAdmission : AdmissionState := ⟨1, []⟩

/-- States reachable from process start by admission transitions. -/
inductive AdmissionReachable : AdmissionState → Prop where
  | init : AdmissionReachable initialAdmission
  | step {s t : AdmissionState} :
      AdmissionReachable s → AdmissionStep s t → AdmissionReachable t

/-- The globals touched by ~DeferredSessionCleanupTask. -/
structure GlobalSessionSlot where
  activeSession : Option Nat
  semaphoreTokens : Nat
deriving DecidableEq

/-- ~DeferredSessionCleanupTask: unconditionally clear s_ActiveSession
and release s_ActiveSessionSemaphore (the only release point). -/
def deferredCleanupDestroy (g : GlobalSessionSlot) : GlobalSessionSlot :=
  { activeSession := none, semaphoreTokens := g.semaphoreTokens + 1 }

/-! The return paths of Session::exec. -/

/-- Every way Session::exec can return. -/
inductive ExecPath where
  | preValidationFailure
  | launchHttpError
  | launchNetworkError
  | transportStartFailure
  | windowCreationFailure
  | streamLoopCompleted
deriving DecidableEq

/-- Whether the path passes `s_ActiveSessionSemaphore.acquire()` before
returning (every path except the initialize() failure return). -/
def acquiresAdmission : ExecPath → Bool
  | ExecPath.preValidationFailure => false
  | _ => true

/-- Whether the path schedules a DeferredSessionCleanupTask. -/
def schedulesCleanupTask : ExecPath → Bool
  | ExecPath.preValidationFailure => false
  | _ => true

/-- Whether the path reaches the LiStartConnection call. -/
def callsStartConnection : ExecPath → Bool
  | ExecPath.preValidationFailure => false
  | ExecPath.launchHttpError => false
  | ExecPath.launchNetworkError => false
  | _ => true

/-- Whether LiStartConnection returned 0 on the path. -/
def transportStartSucceeded : ExecPath → Bool
  | ExecPath.windowCreationFailure => true
  | ExecPath.streamLoopCompleted => true
  | _ => false

/-- Whether SDL_CreateWindow succeeded for the streaming window. -/
def streamWindowCreated : ExecPath → Bool
  | ExecPath.streamLoopCompleted => true
  | _ => false

/-- Whether the path reaches the `m_UnexpectedTermination = false`
assignment placed immediately before the event loop. -/
def clearsUnexpectedTermination : ExecPath → Bool
  | ExecPath.streamLoopCompleted => true
  | _ => false

/-- Paths that abort the session before streaming begins. -/
def isPreStreamingFailure : ExecPath → Bool
  | ExecPath.streamLoopCompleted => false
  | _ => true

/-- The constructor initializer `m_UnexpectedTermination(true)`
("Failure prior to streaming is unexpected"). -/
def sessionConstructorUnexpectedTermination : Bool := true

/-- Value of m_UnexpectedTermination when cleanup runs:
it starts true, is cleared only right before the event loop, and
clConnectionTerminated with a nonzero code sets it back to true. -/
def unexpectedAtCleanup (p : ExecPath) (connTerminatedWithError : Bool) : Bool :=
  if clearsUnexpectedTermination p then connTerminatedWithError
  else sessionConstructorUnexpectedTermination

/-- The user-visible notifications of one session teardown. -/
structure SessionNotifications where
  quitStartingEmitted : Bool
  sessionFinishedCount : Nat
  quitAppIssued : Bool
deriving DecidableEq

/-- DeferredSessionCleanupTask::run: quit the remote app only when the
termination was not unexpected and the preference asks for it; emit
quitStarting plus a final sessionFinished in that case, else a plain
sessionFinished. -/
def deferredCleanupRun (unexpectedTermination quitAppAfter : Bool) : SessionNotifications :=
  if unexpectedTermination = false ∧ quitAppAfter = true then
    { quitStartingEmitted := true, sessionFinishedCount := 1, quitAppIssued := true }
  else
    { quitStartingEmitted := false, sessionFinishedCount := 1, quitAppIssued := false }

/-- Notifications produced on each exec path: the initialize() failure
return emits sessionFinished directly from exec; every other path
defers to the cleanup task. -/
def execNotifications (p : ExecPath) (quitAppAfter connTerminatedWithError : Bool) :
    SessionNotifications :=
  match p with
  | ExecPath.preValidationFailure =>
      { quitStartingEmitted := false, sessionFinishedCount := 1, quitAppIssued := false }
  | _ => deferredCleanupRun (unexpectedAtCleanup p connTerminatedWithError) quitAppAfter

/-! Stream configuration building (Session::initialize, lines 353-433).
RAND_bytes is modelled by a byte oracle `rand : Nat → Nat`: the key
consumes bytes 0..15, the IV prefix bytes 16..19. The Darwin-only HEVC
version fixup is conditionally compiled out and not modelled. -/

/-- The StreamConfiguration fields session.cpp sets or mutates. -/
structure StreamConfig where
  width : Nat
  height : Nat
  fps : Nat
  bitrate : Nat
  packetSize : Nat
  hevcBitratePercentageMultiplier : Nat
  streamingRemotely : Nat
  audioConfiguration : Nat
  supportsHevc : Bool
  enableHdr : Bool
  remoteInputAesKey : List Nat
  remoteInputAesIv : List Nat
deriving DecidableEq

/-- The audioConfig switch of Session::initialize. -/
def audioConfigurationOf : AC → Nat
  | AC.stereo => AUDIO_CONFIGURATION_STEREO
  | AC.surround51 => AUDIO_CONFIGURATION_51_SURROUND

/-- Session::initialize's construction of m_StreamConfig from the
preferences, the videoCodecConfig switch (with the hardware-decode
probe under VCC_AUTO) and two RAND_bytes draws. -/
def buildStreamConfig (prefs : StreamingPreferences) (env : ProbeEnv) (rand : Nat → Nat) :
    StreamConfig :=
  { width := prefs.width
    height := prefs.height
    fps := prefs.fps
    bitrate := prefs.bitrateKbps
    packetSize := 1392
    hevcBitratePercentageMultiplier := 75
    streamingRemotely := STREAM_CFG_AUTO
    audioConfiguration := audioConfigurationOf prefs.audioConfig
    supportsHevc :=
      match prefs.videoCodecConfig with
      | VCC.auto =>
          isHardwareDecodeAvailable env prefs.videoDecoderSelection VIDEO_FORMAT_H265
            prefs.width prefs.height prefs.fps
      | VCC.forceH264 => false
      | VCC.forceHevc => true
      | VCC.forceHevcHdr => true
    enableHdr := prefs.videoCodecConfig == VCC.forceHevcHdr
    remoteInputAesKey := (List.range 16).map rand
    remoteInputAesIv := (List.range 4).map (fun i => rand (16 + i)) ++ List.replicate 12 0 }

/-! Launch validation (Session::validateLaunch), staged exactly in the
source's statement order. Warnings are identified by the
emitLaunchWarning call site; blocking errors by the displayLaunchError
call site. -/

/-- One warning per emitLaunchWarning call site in validateLaunch. -/
inductive Warning where
  | forceSoftwareDecoding
  | unsupportedFpsWarning
  | vsyncDisabledWarning
  | hevcSoftwareFallback
  | clientGpuNoHevc
  | hostGpuNoHevc
  | appNoHdr
  | hostGpuNoHdr
  | noMain10Decode
  | need4kGfe3
  | surroundUnsupported
  | audioUnavailable
  | unmappedGamepad
deriving DecidableEq

/-- The two displayLaunchError messages of the forced-hardware check. -/
inductive LaunchError where
  | forceHwNoHwSupport
  | forceHwCodecIncompatible
deriving DecidableEq

/-- validateLaunch check 1: forced software decoding warning. -/
def softwareDecodingWarning (prefs : StreamingPreferences) : List Warning :=
  if prefs.videoDecoderSelection = VDS.forceSoftware then [Warning.forceSoftwareDecoding]
  else []

/-- validateLaunch check 2: unsupported FPS warning, plus the V-sync
warning when V-sync is also enabled. -/
def fpsWarnings (prefs : StreamingPreferences) (cfg : StreamConfig) : List Warning :=
  if prefs.unsupportedFps ∧ 60 < cfg.fps then
    Warning.unsupportedFpsWarning ::
      (if prefs.enableVsync then [Warning.vsyncDisabledWarning] else [])
  else []

/-- Whether the codec preference forces HEVC (with or without HDR). -/
def hevcForcedPref (prefs : StreamingPreferences) : Bool :=
  prefs.videoCodecConfig == VCC.forceHevc || prefs.videoCodecConfig == VCC.forceHevcHdr

/-- First HEVC sub-check: no hardware HEVC decode under VDS_AUTO either
warns about software fallback (HEVC forced) or warns and disables HEVC. -/
def hevcStepOne (prefs : StreamingPreferences) (env : ProbeEnv) (cfg : StreamConfig) :
    StreamConfig × List Warning :=
  if isHardwareDecodeAvailable env prefs.videoDecoderSelection VIDEO_FORMAT_H265
       cfg.width cfg.height cfg.fps = false ∧
     prefs.videoDecoderSelection = VDS.auto then
    if hevcForcedPref prefs then (cfg, [Warning.hevcSoftwareFallback])
    else ({ cfg with supportsHevc := false }, [Warning.clientGpuNoHevc])
  else (cfg, [])

/-- Second HEVC sub-check: HEVC forced against a host GPU without HEVC
support warns and force-disables HEVC. -/
def hevcStepTwo (prefs : StreamingPreferences) (comp : NvComputer) (cfg : StreamConfig)
    (ws : List Warning) : StreamConfig × List Warning :=
  if hevcForcedPref prefs ∧ comp.maxLumaPixelsHEVC = 0 then
    ({ cfg with supportsHevc := false }, ws ++ [Warning.hostGpuNoHevc])
  else (cfg, ws)

/-- validateLaunch check 3: the HEVC block, guarded by supportsHevc. -/
def hevcChecks (prefs : StreamingPreferences) (comp : NvComputer) (env : ProbeEnv)
    (cfg : StreamConfig) : StreamConfig × List Warning :=
  if cfg.supportsHevc then
    hevcStepTwo prefs comp (hevcStepOne prefs env cfg).1 (hevcStepOne prefs env cfg).2
  else (cfg, [])

/-- validateLaunch check 4: the HDR block. HDR is turned back off and
re-enabled only if the app supports HDR, the host GPU advertises the
0x200 capability bit, and HEVC Main10 hardware decode probes
successfully; each failing criterion emits its own warning. -/
def hdrCheck (prefs : StreamingPreferences) (comp : NvComputer) (app : NvApp)
    (env : ProbeEnv) (cfg : StreamConfig) : StreamConfig × List Warning :=
  if cfg.enableHdr then
    if app.hdrSupported = false then
      ({ cfg with enableHdr := false }, [Warning.appNoHdr])
    else if comp.serverCodecModeSupport &&& 0x200 = 0 then
      ({ cfg with enableHdr := false }, [Warning.hostGpuNoHdr])
    else if isHardwareDecodeAvailable env prefs.videoDecoderSelection VIDEO_FORMAT_H265_MAIN10
              cfg.width cfg.height cfg.fps = false then
      ({ cfg with enableHdr := false }, [Warning.noMain10Decode])
    else
      ({ cfg with enableHdr := true }, [])
  else (cfg, [])

/-- validateLaunch check 5: 4K gating. Resolutions at least 3840 wide
fall back to 1920x1080 with a warning when the reported GFE version is
empty or starts with "2.". -/
def fourKCheck (comp : NvComputer) (cfg : StreamConfig) : StreamConfig × List Warning :=
  if 3840 ≤ cfg.width then
    if comp.gfeVersion.isEmpty || List.isPrefixOf ['2', '.'] comp.gfeVersion then
      ({ cfg with width := 1920, height := 1080 }, [Warning.need4kGfe3])
    else (cfg, [])
  else (cfg, [])

/-- The stereo retry taken when the first audio test failed on 5.1:
on success the configuration degrades to stereo with a warning. The
Bool is audioTestPassed after the retry. -/
def audioRetry (env : ProbeEnv) (cfg : StreamConfig) : StreamConfig × Bool × List Warning :=
  if env.testAudio AUDIO_CONFIGURATION_STEREO then
    ({ cfg with audioConfiguration := AUDIO_CONFIGURATION_STEREO }, true,
      [Warning.surroundUnsupported])
  else (cfg, false, [])

/-- The audio probing of validateLaunch check 6 before the final
audio-disabled bookkeeping. -/
def audioCheckCore (env : ProbeEnv) (cfg : StreamConfig) : StreamConfig × Bool × List Warning :=
  if env.testAudio cfg.audioConfiguration then (cfg, true, [])
  else if cfg.audioConfiguration = AUDIO_CONFIGURATION_51_SURROUND then audioRetry env cfg
  else (cfg, false, [])

/-- validateLaunch check 6: the full audio block. The second component
is m_AudioDisabled (`!audioTestPassed`), with its warning. -/
def audioCheck (env : ProbeEnv) (cfg : StreamConfig) : StreamConfig × Bool × List Warning :=
  if (audioCheckCore env cfg).2.1 then
    ((audioCheckCore env cfg).1, false, (audioCheckCore env cfg).2.2)
  else
    ((audioCheckCore env cfg).1, true, (audioCheckCore env cfg).2.2 ++ [Warning.audioUnavailable])

/-- validateLaunch check 7: unmapped gamepad warning. -/
def gamepadWarning (env : ProbeEnv) : List Warning :=
  if env.hasUnmappedGamepads then [Warning.unmappedGamepad] else []

/-- validateLaunch check 8: forced hardware decoding with no hardware
decode available at the final negotiated format raises one of two
blocking errors (automatic vs explicit codec choice) and fails
validation. -/
def forcedHwCheck (prefs : StreamingPreferences) (env : ProbeEnv) (cfg : StreamConfig) :
    Option LaunchError :=
  if prefs.videoDecoderSelection = VDS.forceHardware ∧
     isHardwareDecodeAvailable env prefs.videoDecoderSelection
       (if cfg.supportsHevc then VIDEO_FORMAT_H265 else VIDEO_FORMAT_H264)
       cfg.width cfg.height cfg.fps = false then
    if prefs.videoCodecConfig = VCC.auto then some LaunchError.forceHwNoHwSupport
    else some LaunchError.forceHwCodecIncompatible
  else none

/-- The outcome of Session::validateLaunch: the final configuration,
m_AudioDisabled, the warnings in emission order, the blocking error if
any, and the returned Bool. -/
structure ValidateResult where
  config : StreamConfig
  audioDisabled : Bool
  warnings : List Warning
  error : Option LaunchError
  ok : Bool
deriving DecidableEq

/-- Session::validateLaunch: the eight checks in source order, threading
m_StreamConfig through them. -/
def validateLaunch (prefs : StreamingPreferences) (comp : NvComputer) (app : NvApp)
    (env : ProbeEnv) (cfg0 : StreamConfig) : ValidateResult :=
  let wA := softwareDecodingWarning prefs
  let wB := fpsWarnings prefs cfg0
  let cw1 := hevcChecks prefs comp env cfg0
  let cw2 := hdrCheck prefs comp app env cw1.1
  let cw3 := fourKCheck comp cw2.1
  let aw := audioCheck env cw3.1
  let wG := gamepadWarning env
  let err := forcedHwCheck prefs env aw.1
  { config := aw.1
    audioDisabled := aw.2.1
    warnings := wA ++ wB ++ cw1.2 ++ cw2.2 ++ cw3.2 ++ aw.2.2 ++ wG
    error := err
    ok := err.isNone }

/-! Sample inputs used by the concrete witnesses. -/

/-- Sample preferences: a 4K/60 request with the given selections. -/
def prefsEx (vds : VDS) (vcc : VCC) (ac : AC) : StreamingPreferences :=
  ⟨3840, 2160, 60, 20000, vds, vcc, ac, false, false, false, false⟩

/-- Sample host with HEVC support and the HDR capability bit set. -/
def compEx (gfe : List Char) : NvComputer := ⟨gfe, 1, 0x300⟩

/-- Sample probe environment: a fixed candidate list for every decoder
probe and a given audio-test oracle, no unmapped gamepads. -/
def envEx (cands : List DecoderCandidate) (audio : Nat → Bool) : ProbeEnv :=
  ⟨fun _ _ _ _ _ => cands, audio, false⟩

/-- Concrete validation run for the HDR witness: HDR forced, app
without HDR support. -/
def vrHdrEx : ValidateResult :=
  validateLaunch (prefsEx VDS.auto VCC.forceHevcHdr AC.stereo) (compEx ['3', '.']) ⟨false⟩
    (envEx [⟨true, true, 0⟩] (fun _ => true))
    (buildStreamConfig (prefsEx VDS.auto VCC.forceHevcHdr AC.stereo)
      (envEx [⟨true, true, 0⟩] (fun _ => true)) (fun _ => 0))

/-- Concrete validation run for the forced-hardware witness: hardware
decoding forced while no decoder candidate initializes. -/
def vrForcedHwEx : ValidateResult :=
  validateLaunch (prefsEx VDS.forceHardware VCC.auto AC.stereo) (compEx ['3', '.']) ⟨true⟩
    (envEx [] (fun _ => true))
    (buildStreamConfig (prefsEx VDS.forceHardware VCC.auto AC.stereo)
      (envEx [] (fun _ => true)) (fun _ => 0))

/-- Concrete validation run for the audio witness: 5.1 requested while
only stereo opens. -/
def vrAudioEx : ValidateResult :=
  validateLaunch (prefsEx VDS.auto VCC.auto AC.surround51) (compEx ['3', '.']) ⟨true⟩
    (envEx [⟨true, true, 0⟩] (fun n => n == 0))
    (buildStreamConfig (prefsEx VDS.auto VCC.auto AC.surround51)
      (envEx [⟨true, true, 0⟩] (fun n => n == 0)) (fun _ => 0))

/-- Concrete validation run for the 4K witness: 4K request against a
GFE 3.x host. -/
def vrFourKEx : ValidateResult :=
  validateLaunch (prefsEx VDS.auto VCC.auto AC.stereo) (compEx ['3', '.']) ⟨true⟩
    (envEx [⟨true, true, 0⟩] (fun _ => true))
    (buildStreamConfig (prefsEx VDS.auto VCC.auto AC.stereo)
      (envEx [⟨true, true, 0⟩] (fun _ => true)) (fun _ => 0))

/-! Helper lemmas. -/

/-- Helper: a list whose members all differ from `a` counts `a` zero times. -/
theorem count_warning_zero {a : Warning} {l : List Warning} (h : ∀ b ∈ l, b ≠ a) :
    l.count a = 0 :=
  List.count_eq_zero.mpr (fun hm => h a hm rfl)

/-- Helper: token-counting invariant of the admission transition system:
the available token plus the admitted-but-not-cleaned-up sessions always
sum to one. -/
theorem admission_token_invariant : ∀ s, AdmissionReachable s → s.tokens + s.active.length = 1 := by
  intro s h
  induction h with
  | init => rfl
  | step _ hs ih =>
    cases hs with
    | acquireAndActivate sid htok =>
      simp only [List.length_cons]
      omega
    | cleanupDestroyRelease sid hmem =>
      have hlen := List.length_erase_of_mem hmem
      have hpos := List.length_pos.mpr (List.ne_nil_of_mem hmem)
      simp only [hlen]
      omega

/-! Stage lemmas for validateLaunch: which configuration fields each
check leaves untouched, which warnings it can emit, and its exact
outcome under each guard. -/

/-- The first HEVC sub-check does not change the stream width. -/
theorem hevcStepOne_width (prefs : StreamingPreferences) (env : ProbeEnv) (cfg : StreamConfig) :
    (hevcStepOne prefs env cfg).1.width = cfg.width := by
  unfold hevcStepOne
  repeat' split
  all_goals rfl

/-- The first HEVC sub-check does not change the stream height. -/
theorem hevcStepOne_height (prefs : StreamingPreferences) (env : ProbeEnv) (cfg : StreamConfig) :
    (hevcStepOne prefs env cfg).1.height = cfg.height := by
  unfold hevcStepOne
  repeat' split
  all_goals rfl

/-- The first HEVC sub-check does not change the stream fps. -/
theorem hevcStepOne_fps (prefs : StreamingPreferences) (env : ProbeEnv) (cfg : StreamConfig) :
    (hevcStepOne prefs env cfg).1.fps = cfg.fps := by
  unfold hevcStepOne
  repeat' split
  all_goals rfl

/-- The first HEVC sub-check does not change enableHdr. -/
theorem hevcStepOne_enableHdr (prefs : StreamingPreferences) (env : ProbeEnv)
    (cfg : StreamConfig) : (hevcStepOne prefs env cfg).1.enableHdr = cfg.enableHdr := by
  unfold hevcStepOne
  repeat' split
  all_goals rfl

/-- The first HEVC sub-check does not change the audio configuration. -/
theorem hevcStepOne_audioConfig (prefs : StreamingPreferences) (env : ProbeEnv)
    (cfg : StreamConfig) :
    (hevcStepOne prefs env cfg).1.audioConfiguration = cfg.audioConfiguration := by
  unfold hevcStepOne
  repeat' split
  all_goals rfl

/-- The second HEVC sub-check does not change the stream width. -/
theorem hevcStepTwo_width (prefs : StreamingPreferences) (comp : NvComputer)
    (cfg : StreamConfig) (ws : List Warning) :
    (hevcStepTwo prefs comp cfg ws).1.width = cfg.width := by
  unfold hevcStepTwo
  split
  all_goals rfl

/-- The second HEVC sub-check does not change the stream height. -/
theorem hevcStepTwo_height (prefs : StreamingPreferences) (comp : NvComputer)
    (cfg : StreamConfig) (ws : List Warning) :
    (hevcStepTwo prefs comp cfg ws).1.height = cfg.height := by
  unfold hevcStepTwo
  split
  all_goals rfl

/-- The second HEVC sub-check does not change the stream fps. -/
theorem hevcStepTwo_fps (prefs : StreamingPreferences) (comp : NvComputer)
    (cfg : StreamConfig) (ws : List Warning) :
    (hevcStepTwo prefs comp cfg ws).1.fps = cfg.fps := by
  unfold hevcStepTwo
  split
  all_goals rfl

/-- The second HEVC sub-check does not change enableHdr. -/
theorem hevcStepTwo_enableHdr (prefs : StreamingPreferences) (comp : NvComputer)
    (cfg : StreamConfig) (ws : List Warning) :
    (hevcStepTwo prefs comp cfg ws).1.enableHdr = cfg.enableHdr := by
  unfold hevcStepTwo
  split
  all_goals rfl

/-- The second HEVC sub-check does not change the audio configuration. -/
theorem hevcStepTwo_audioConfig (prefs : StreamingPreferences) (comp : NvComputer)
    (cfg : StreamConfig) (ws : List Warning) :
    (hevcStepTwo prefs comp cfg ws).1.audioConfiguration = cfg.audioConfiguration := by
  unfold hevcStepTwo
  split
  all_goals rfl

/-- The HEVC block does not change the stream width. -/
theorem hevcChecks_width (prefs : StreamingPreferences) (comp : NvComputer) (env : ProbeEnv)
    (cfg : StreamConfig) : (hevcChecks prefs comp env cfg).1.width = cfg.width := by
  unfold hevcChecks
  split
  · rw [hevcStepTwo_width, hevcStepOne_width]
  · rfl

/-- The HEVC block does not change the stream height. -/
theorem hevcChecks_height (prefs : StreamingPreferences) (comp : NvComputer) (env : ProbeEnv)
    (cfg : StreamConfig) : (hevcChecks prefs comp env cfg).1.height = cfg.height := by
  unfold hevcChecks
  split
  · rw [hevcStepTwo_height, hevcStepOne_height]
  · rfl

/-- The HEVC block does not change the stream fps. -/
theorem hevcChecks_fps (prefs : StreamingPreferences) (comp : NvComputer) (env : ProbeEnv)
    (cfg : StreamConfig) : (hevcChecks prefs comp env cfg).1.fps = cfg.fps := by
  unfold hevcChecks
  split
  · rw [hevcStepTwo_fps, hevcStepOne_fps]
  · rfl

/-- The HEVC block does not change enableHdr. -/
theorem hevcChecks_enableHdr (prefs : StreamingPreferences) (comp : NvComputer) (env : ProbeEnv)
    (cfg : StreamConfig) : (hevcChecks prefs comp env cfg).1.enableHdr = cfg.enableHdr := by
  unfold hevcChecks
  split
  · rw [hevcStepTwo_enableHdr, hevcStepOne_enableHdr]
  · rfl

/-- The HEVC block does not change the audio configuration. -/
theorem hevcChecks_audioConfig (prefs : StreamingPreferences) (comp : NvComputer) (env : ProbeEnv)
    (cfg : StreamConfig) :
    (hevcChecks prefs comp env cfg).1.audioConfiguration = cfg.audioConfiguration := by
  unfold hevcChecks
  split
  · rw [hevcStepTwo_audioConfig, hevcStepOne_audioConfig]
  · rfl

/-- The HDR block does not change the stream width. -/
theorem hdrCheck_width (prefs : StreamingPreferences) (comp : NvComputer) (app : NvApp)
    (env : ProbeEnv) (cfg : StreamConfig) :
    (hdrCheck prefs comp app env cfg).1.width = cfg.width := by
  unfold hdrCheck
  repeat' split
  all_goals rfl

/-- The HDR block does not change the stream height. -/
theorem hdrCheck_height (prefs : StreamingPreferences) (comp : NvComputer) (app : NvApp)
    (env : ProbeEnv) (cfg : StreamConfig) :
    (hdrCheck prefs comp app env cfg).1.height = cfg.height := by
  unfold hdrCheck
  repeat' split
  all_goals rfl

/-- The HDR block does not change the audio configuration. -/
theorem hdrCheck_audioConfig (prefs : StreamingPreferences) (comp : NvComputer) (app : NvApp)
    (env : ProbeEnv) (cfg : StreamConfig) :
    (hdrCheck prefs comp app env cfg).1.audioConfiguration = cfg.audioConfiguration := by
  unfold hdrCheck
  repeat' split
  all_goals rfl

/-- The 4K gate does not change enableHdr. -/
theorem fourKCheck_enableHdr (comp : NvComputer) (cfg : StreamConfig) :
    (fourKCheck comp cfg).1.enableHdr = cfg.enableHdr := by
  unfold fourKCheck
  repeat' split
  all_goals rfl

/-- The 4K gate does not change the audio configuration. -/
theorem fourKCheck_audioConfig (comp : NvComputer) (cfg : StreamConfig) :
    (fourKCheck comp cfg).1.audioConfiguration = cfg.audioConfiguration := by
  unfold fourKCheck
  repeat' split
  all_goals rfl

/-- The audio block does not change the stream width. -/
theorem audioCheck_width (env : ProbeEnv) (cfg : StreamConfig) :
    (audioCheck env cfg).1.width = cfg.width := by
  unfold audioCheck audioCheckCore audioRetry
  repeat' split
  all_goals rfl

/-- The audio block does not change the stream height. -/
theorem audioCheck_height (env : ProbeEnv) (cfg : StreamConfig) :
    (audioCheck env cfg).1.height = cfg.height := by
  unfold audioCheck audioCheckCore audioRetry
  repeat' split
  all_goals rfl

/-- The audio block does not change enableHdr. -/
theorem audioCheck_enableHdr (env : ProbeEnv) (cfg : StreamConfig) :
    (audioCheck env cfg).1.enableHdr = cfg.enableHdr := by
  unfold audioCheck audioCheckCore audioRetry
  repeat' split
  all_goals rfl

/-- Check 1 emits only the software-decoding warning. -/
theorem softwareDecodingWarning_mem (prefs : StreamingPreferences) :
    ∀ w ∈ softwareDecodingWarning prefs, w = Warning.forceSoftwareDecoding := by
  intro w hw
  unfold softwareDecodingWarning at hw
  split at hw
  all_goals simp_all

/-- Check 2 emits only the FPS and V-sync warnings. -/
theorem fpsWarnings_mem (prefs : StreamingPreferences) (cfg : StreamConfig) :
    ∀ w ∈ fpsWarnings prefs cfg,
      w = Warning.unsupportedFpsWarning ∨ w = Warning.vsyncDisabledWarning := by
  intro w hw
  unfold fpsWarnings at hw
  split at hw
  · rw [List.mem_cons] at hw
    rcases hw with h | h
    · exact Or.inl h
    · split at h <;> simp_all
  · simp_all

/-- The first HEVC sub-check emits only its two warnings. -/
theorem hevcStepOne_mem (prefs : StreamingPreferences) (env : ProbeEnv) (cfg : StreamConfig) :
    ∀ w ∈ (hevcStepOne prefs env cfg).2,
      w = Warning.hevcSoftwareFallback ∨ w = Warning.clientGpuNoHevc := by
  intro w hw
  unfold hevcStepOne at hw
  repeat' split at hw
  all_goals simp_all

/-- The second HEVC sub-check adds at most the host-GPU warning. -/
theorem hevcStepTwo_mem (prefs : StreamingPreferences) (comp : NvComputer) (cfg : StreamConfig)
    (ws : List Warning) :
    ∀ w ∈ (hevcStepTwo prefs comp cfg ws).2, w ∈ ws ∨ w = Warning.hostGpuNoHevc := by
  intro w hw
  unfold hevcStepTwo at hw
  split at hw
  all_goals simp_all

/-- The HEVC block emits only its three warnings. -/
theorem hevcChecks_mem (prefs : StreamingPreferences) (comp : NvComputer) (env : ProbeEnv)
    (cfg : StreamConfig) :
    ∀ w ∈ (hevcChecks prefs comp env cfg).2,
      w = Warning.hevcSoftwareFallback ∨ w = Warning.clientGpuNoHevc ∨
      w = Warning.hostGpuNoHevc := by
  intro w hw
  unfold hevcChecks at hw
  split at hw
  · rcases hevcStepTwo_mem prefs comp _ _ w hw with h | h
    · rcases hevcStepOne_mem prefs env cfg w h with h1 | h1
      · exact Or.inl h1
      · exact Or.inr (Or.inl h1)
    · exact Or.inr (Or.inr h)
  · simp_all

/-- The HDR block emits only its three warnings. -/
theorem hdrCheck_mem (prefs : StreamingPreferences) (comp : NvComputer) (app : NvApp)
    (env : ProbeEnv) (cfg : StreamConfig) :
    ∀ w ∈ (hdrCheck prefs comp app env cfg).2,
      w = Warning.appNoHdr ∨ w = Warning.hostGpuNoHdr ∨ w = Warning.noMain10Decode := by
  intro w hw
  unfold hdrCheck at hw
  repeat' split at hw
  all_goals simp_all

/-- The 4K gate emits only its warning. -/
theorem fourKCheck_mem (comp : NvComputer) (cfg : StreamConfig) :
    ∀ w ∈ (fourKCheck comp cfg).2, w = Warning.need4kGfe3 := by
  intro w hw
  unfold fourKCheck at hw
  repeat' split at hw
  all_goals simp_all

/-- The audio block emits only its two warnings. -/
theorem audioCheck_mem (env : ProbeEnv) (cfg : StreamConfig) :
    ∀ w ∈ (audioCheck env cfg).2.2,
      w = Warning.surroundUnsupported ∨ w = Warning.audioUnavailable := by
  intro w hw
  unfold audioCheck audioCheckCore audioRetry at hw
  repeat' split at hw
  all_goals simp_all

/-- Check 7 emits only the unmapped-gamepad warning. -/
theorem gamepadWarning_mem (env : ProbeEnv) :
    ∀ w ∈ gamepadWarning env, w = Warning.unmappedGamepad := by
  intro w hw
  unfold gamepadWarning at hw
  split at hw
  all_goals simp_all

/-- Count form of softwareDecodingWarning_mem. -/
theorem softwareDecodingWarning_count (prefs : StreamingPreferences) (a : Warning)
    (h1 : a ≠ Warning.forceSoftwareDecoding) :
    (softwareDecodingWarning prefs).count a = 0 := by
  refine count_warning_zero ?_
  intro b hb
  have h := softwareDecodingWarning_mem prefs b hb
  subst h
  exact fun he => h1 he.symm

/-- Count form of fpsWarnings_mem. -/
theorem fpsWarnings_count (prefs : StreamingPreferences) (cfg : StreamConfig) (a : Warning)
    (h1 : a ≠ Warning.unsupportedFpsWarning) (h2 : a ≠ Warning.vsyncDisabledWarning) :
    (fpsWarnings prefs cfg).count a = 0 := by
  refine count_warning_zero ?_
  intro b hb
  rcases fpsWarnings_mem prefs cfg b hb with h | h
  · subst h; exact fun he => h1 he.symm
  · subst h; exact fun he => h2 he.symm

/-- Count form of hevcChecks_mem. -/
theorem hevcChecks_count (prefs : StreamingPreferences) (comp : NvComputer) (env : ProbeEnv)
    (cfg : StreamConfig) (a : Warning)
    (h1 : a ≠ Warning.hevcSoftwareFallback) (h2 : a ≠ Warning.clientGpuNoHevc)
    (h3 : a ≠ Warning.hostGpuNoHevc) :
    (hevcChecks prefs comp env cfg).2.count a = 0 := by
  refine count_warning_zero ?_
  intro b hb
  rcases hevcChecks_mem prefs comp env cfg b hb with h | h | h
  · subst h; exact fun he => h1 he.symm
  · subst h; exact fun he => h2 he.symm
  · subst h; exact fun he => h3 he.symm

/-- Count form of hdrCheck_mem. -/
theorem hdrCheck_count (prefs : StreamingPreferences) (comp : NvComputer) (app : NvApp)
    (env : ProbeEnv) (cfg : StreamConfig) (a : Warning)
    (h1 : a ≠ Warning.appNoHdr) (h2 : a ≠ Warning.hostGpuNoHdr)
    (h3 : a ≠ Warning.noMain10Decode) :
    (hdrCheck prefs comp app env cfg).2.count a = 0 := by
  refine count_warning_zero ?_
  intro b hb
  rcases hdrCheck_mem prefs comp app env cfg b hb with h | h | h
  · subst h; exact fun he => h1 he.symm
  · subst h; exact fun he => h2 he.symm
  · subst h; exact fun he => h3 he.symm

/-- Count form of fourKCheck_mem. -/
theorem fourKCheck_count (comp : NvComputer) (cfg : StreamConfig) (a : Warning)
    (h1 : a ≠ Warning.need4kGfe3) :
    (fourKCheck comp cfg).2.count a = 0 := by
  refine count_warning_zero ?_
  intro b hb
  have h := fourKCheck_mem comp cfg b hb
  subst h
  exact fun he => h1 he.symm

/-- Count form of audioCheck_mem. -/
theorem audioCheck_count (env : ProbeEnv) (cfg : StreamConfig) (a : Warning)
    (h1 : a ≠ Warning.surroundUnsupported) (h2 : a ≠ Warning.audioUnavailable) :
    (audioCheck env cfg).2.2.count a = 0 := by
  refine count_warning_zero ?_
  intro b hb
  rcases audioCheck_mem env cfg b hb with h | h
  · subst h; exact fun he => h1 he.symm
  · subst h; exact fun he => h2 he.symm

/-- Count form of gamepadWarning_mem. -/
theorem gamepadWarning_count (env : ProbeEnv) (a : Warning)
    (h1 : a ≠ Warning.unmappedGamepad) :
    (gamepadWarning env).count a = 0 := by
  refine count_warning_zero ?_
  intro b hb
  have h := gamepadWarning_mem env b hb
  subst h
  exact fun he => h1 he.symm

/-- The HDR block is a no-op when HDR was not requested. -/
theorem hdrCheck_off (prefs : StreamingPreferences) (comp : NvComputer) (app : NvApp)
    (env : ProbeEnv) (cfg : StreamConfig) (h : cfg.enableHdr = false) :
    hdrCheck prefs comp app env cfg = (cfg, []) := by
  simp [hdrCheck, h]

/-- The HDR block with an app that does not advertise HDR. -/
theorem hdrCheck_appNoHdr (prefs : StreamingPreferences) (comp : NvComputer) (app : NvApp)
    (env : ProbeEnv) (cfg : StreamConfig) (h : cfg.enableHdr = true)
    (ha : app.hdrSupported = false) :
    hdrCheck prefs comp app env cfg
      = ({ cfg with enableHdr := false }, [Warning.appNoHdr]) := by
  simp [hdrCheck, h, ha]

/-- The HDR block with a host GPU lacking the 0x200 HDR bit. -/
theorem hdrCheck_hostNoHdr (prefs : StreamingPreferences) (comp : NvComputer) (app : NvApp)
    (env : ProbeEnv) (cfg : StreamConfig) (h : cfg.enableHdr = true)
    (ha : app.hdrSupported = true) (hb : comp.serverCodecModeSupport &&& 0x200 = 0) :
    hdrCheck prefs comp app env cfg
      = ({ cfg with enableHdr := false }, [Warning.hostGpuNoHdr]) := by
  simp [hdrCheck, h, ha, hb]

/-- The HDR block with a failing HEVC Main10 decode probe. -/
theorem hdrCheck_noMain10 (prefs : StreamingPreferences) (comp : NvComputer) (app : NvApp)
    (env : ProbeEnv) (cfg : StreamConfig) (h : cfg.enableHdr = true)
    (ha : app.hdrSupported = true) (hb : comp.serverCodecModeSupport &&& 0x200 ≠ 0)
    (hp : isHardwareDecodeAvailable env prefs.videoDecoderSelection VIDEO_FORMAT_H265_MAIN10
            cfg.width cfg.height cfg.fps = false) :
    hdrCheck prefs comp app env cfg
      = ({ cfg with enableHdr := false }, [Warning.noMain10Decode]) := by
  simp [hdrCheck, h, ha, hb, hp]

/-- The HDR block with every criterion satisfied keeps HDR enabled. -/
theorem hdrCheck_on (prefs : StreamingPreferences) (comp : NvComputer) (app : NvApp)
    (env : ProbeEnv) (cfg : StreamConfig) (h : cfg.enableHdr = true)
    (ha : app.hdrSupported = true) (hb : comp.serverCodecModeSupport &&& 0x200 ≠ 0)
    (hp : isHardwareDecodeAvailable env prefs.videoDecoderSelection VIDEO_FORMAT_H265_MAIN10
            cfg.width cfg.height cfg.fps = true) :
    hdrCheck prefs comp app env cfg = ({ cfg with enableHdr := true }, []) := by
  simp [hdrCheck, h, ha, hb, hp]

/-- The 4K gate is a no-op below 3840 pixels of width. -/
theorem fourKCheck_small (comp : NvComputer) (cfg : StreamConfig) (h : cfg.width < 3840) :
    fourKCheck comp cfg = (cfg, []) := by
  unfold fourKCheck
  rw [if_neg (by omega)]

/-- The 4K gate downgrades to 1080p against an empty or 2.x GFE version. -/
theorem fourKCheck_legacy (comp : NvComputer) (cfg : StreamConfig) (h : 3840 ≤ cfg.width)
    (hg : (comp.gfeVersion.isEmpty || List.isPrefixOf ['2', '.'] comp.gfeVersion) = true) :
    fourKCheck comp cfg
      = ({ cfg with width := 1920, height := 1080 }, [Warning.need4kGfe3]) := by
  simp [fourKCheck, h, hg]

/-- The 4K gate is a no-op against a non-empty, non-2.x GFE version. -/
theorem fourKCheck_modern (comp : NvComputer) (cfg : StreamConfig) (h : 3840 ≤ cfg.width)
    (hg : (comp.gfeVersion.isEmpty || List.isPrefixOf ['2', '.'] comp.gfeVersion) = false) :
    fourKCheck comp cfg = (cfg, []) := by
  simp [fourKCheck, h, hg]

/-- The audio block when the first probe passes. -/
theorem audioCheck_pass (env : ProbeEnv) (cfg : StreamConfig)
    (h : env.testAudio cfg.audioConfiguration = true) :
    audioCheck env cfg = (cfg, false, []) := by
  simp [audioCheck, audioCheckCore, h]

/-- The audio block when 5.1 fails but the stereo retry passes. -/
theorem audioCheck_surround_retry_ok (env : ProbeEnv) (cfg : StreamConfig)
    (h : env.testAudio cfg.audioConfiguration = false)
    (hs : cfg.audioConfiguration = AUDIO_CONFIGURATION_51_SURROUND)
    (hr : env.testAudio AUDIO_CONFIGURATION_STEREO = true) :
    audioCheck env cfg
      = ({ cfg with audioConfiguration := AUDIO_CONFIGURATION_STEREO }, false,
         [Warning.surroundUnsupported]) := by
  rw [hs] at h
  simp [audioCheck, audioCheckCore, audioRetry, h, hs, hr]

/-- The audio block when 5.1 fails and the stereo retry also fails. -/
theorem audioCheck_surround_retry_fail (env : ProbeEnv) (cfg : StreamConfig)
    (h : env.testAudio cfg.audioConfiguration = false)
    (hs : cfg.audioConfiguration = AUDIO_CONFIGURATION_51_SURROUND)
    (hr : env.testAudio AUDIO_CONFIGURATION_STEREO = false) :
    audioCheck env cfg = (cfg, true, [Warning.audioUnavailable]) := by
  rw [hs] at h
  simp [audioCheck, audioCheckCore, audioRetry, h, hs, hr]

/-- The audio block when a non-5.1 configuration fails (no retry). -/
theorem audioCheck_fail_no_retry (env : ProbeEnv) (cfg : StreamConfig)
    (h : env.testAudio cfg.audioConfiguration = false)
    (hs : cfg.audioConfiguration ≠ AUDIO_CONFIGURATION_51_SURROUND) :
    audioCheck env cfg = (cfg, true, [Warning.audioUnavailable]) := by
  simp [audioCheck, audioCheckCore, h, hs]

/-- The final configuration of validateLaunch is the audio block's
output on the 4K gate's output on the HDR block's output on the HEVC
block's output. -/
theorem final_config_eq (prefs : StreamingPreferences) (comp : NvComputer) (app : NvApp)
    (env : ProbeEnv) (cfg0 : StreamConfig) :
    (validateLaunch prefs comp app env cfg0).config
      = (audioCheck env (fourKCheck comp (hdrCheck prefs comp app env
          (hevcChecks prefs comp env cfg0).1).1).1).1 := rfl

/-- enableHdr of the final configuration is decided by the HDR block. -/
theorem final_enableHdr_eq (prefs : StreamingPreferences) (comp : NvComputer) (app : NvApp)
    (env : ProbeEnv) (cfg0 : StreamConfig) :
    (validateLaunch prefs comp app env cfg0).config.enableHdr
      = (hdrCheck prefs comp app env (hevcChecks prefs comp env cfg0).1).1.enableHdr := by
  rw [final_config_eq, audioCheck_enableHdr, fourKCheck_enableHdr]

/-- The final width is decided by the 4K gate. -/
theorem final_width_eq (prefs : StreamingPreferences) (comp : NvComputer) (app : NvApp)
    (env : ProbeEnv) (cfg0 : StreamConfig) :
    (validateLaunch prefs comp app env cfg0).config.width
      = (fourKCheck comp (hdrCheck prefs comp app env
          (hevcChecks prefs comp env cfg0).1).1).1.width := by
  rw [final_config_eq, audioCheck_width]

/-- The final height is decided by the 4K gate. -/
theorem final_height_eq (prefs : StreamingPreferences) (comp : NvComputer) (app : NvApp)
    (env : ProbeEnv) (cfg0 : StreamConfig) :
    (validateLaunch prefs comp app env cfg0).config.height
      = (fourKCheck comp (hdrCheck prefs comp app env
          (hevcChecks prefs comp env cfg0).1).1).1.height := by
  rw [final_config_eq, audioCheck_height]

/-- The audio configuration entering the audio block is the built one. -/
theorem cfg3_audioConfig (prefs : StreamingPreferences) (comp : NvComputer) (app : NvApp)
    (env : ProbeEnv) (cfg0 : StreamConfig) :
    (fourKCheck comp (hdrCheck prefs comp app env
        (hevcChecks prefs comp env cfg0).1).1).1.audioConfiguration
      = cfg0.audioConfiguration := by
  rw [fourKCheck_audioConfig, hdrCheck_audioConfig, hevcChecks_audioConfig]

/-- Total appNoHdr warnings come only from the HDR block. -/
theorem count_appNoHdr_eq (prefs : StreamingPreferences) (comp : NvComputer) (app : NvApp)
    (env : ProbeEnv) (cfg0 : StreamConfig) :
    (validateLaunch prefs comp app env cfg0).warnings.count Warning.appNoHdr
      = (hdrCheck prefs comp app env
          (hevcChecks prefs comp env cfg0).1).2.count Warning.appNoHdr := by
  simp only [validateLaunch, List.count_append]
  rw [softwareDecodingWarning_count _ _ (by decide), fpsWarnings_count _ _ _ (by decide)
        (by decide), hevcChecks_count _ _ _ _ _ (by decide) (by decide) (by decide),
      fourKCheck_count _ _ _ (by decide), audioCheck_count _ _ _ (by decide) (by decide),
      gamepadWarning_count _ _ (by decide)]
  omega

/-- Total hostGpuNoHdr warnings come only from the HDR block. -/
theorem count_hostGpuNoHdr_eq (prefs : StreamingPreferences) (comp : NvComputer) (app : NvApp)
    (env : ProbeEnv) (cfg0 : StreamConfig) :
    (validateLaunch prefs comp app env cfg0).warnings.count Warning.hostGpuNoHdr
      = (hdrCheck prefs comp app env
          (hevcChecks prefs comp env cfg0).1).2.count Warning.hostGpuNoHdr := by
  simp only [validateLaunch, List.count_append]
  rw [softwareDecodingWarning_count _ _ (by decide), fpsWarnings_count _ _ _ (by decide)
        (by decide), hevcChecks_count _ _ _ _ _ (by decide) (by decide) (by decide),
      fourKCheck_count _ _ _ (by decide), audioCheck_count _ _ _ (by decide) (by decide),
      gamepadWarning_count _ _ (by decide)]
  omega

/-- Total noMain10Decode warnings come only from the HDR block. -/
theorem count_noMain10_eq (prefs : StreamingPreferences) (comp : NvComputer) (app : NvApp)
    (env : ProbeEnv) (cfg0 : StreamConfig) :
    (validateLaunch prefs comp app env cfg0).warnings.count Warning.noMain10Decode
      = (hdrCheck prefs comp app env
          (hevcChecks prefs comp env cfg0).1).2.count Warning.noMain10Decode := by
  simp only [validateLaunch, List.count_append]
  rw [softwareDecodingWarning_count _ _ (by decide), fpsWarnings_count _ _ _ (by decide)
        (by decide), hevcChecks_count _ _ _ _ _ (by decide) (by decide) (by decide),
      fourKCheck_count _ _ _ (by decide), audioCheck_count _ _ _ (by decide) (by decide),
      gamepadWarning_count _ _ (by decide)]
  omega

/-- Total need4kGfe3 warnings come only from the 4K gate. -/
theorem count_need4k_eq (prefs : StreamingPreferences) (comp : NvComputer) (app : NvApp)
    (env : ProbeEnv) (cfg0 : StreamConfig) :
    (validateLaunch prefs comp app env cfg0).warnings.count Warning.need4kGfe3
      = (fourKCheck comp (hdrCheck prefs comp app env
          (hevcChecks prefs comp env cfg0).1).1).2.count Warning.need4kGfe3 := by
  simp only [validateLaunch, List.count_append]
  rw [softwareDecodingWarning_count _ _ (by decide), fpsWarnings_count _ _ _ (by decide)
        (by decide), hevcChecks_count _ _ _ _ _ (by decide) (by decide) (by decide),
      hdrCheck_count _ _ _ _ _ _ (by decide) (by decide) (by decide),
      audioCheck_count _ _ _ (by decide) (by decide),
      gamepadWarning_count _ _ (by decide)]
  omega

/-- Total surroundUnsupported warnings come only from the audio block. -/
theorem count_surround_eq (prefs : StreamingPreferences) (comp : NvComputer) (app : NvApp)
    (env : ProbeEnv) (cfg0 : StreamConfig) :
    (validateLaunch prefs comp app env cfg0).warnings.count Warning.surroundUnsupported
      = (audioCheck env (fourKCheck comp (hdrCheck prefs comp app env
          (hevcChecks prefs comp env cfg0).1).1).1).2.2.count Warning.surroundUnsupported := by
  simp only [validateLaunch, List.count_append]
  rw [softwareDecodingWarning_count _ _ (by decide), fpsWarnings_count _ _ _ (by decide)
        (by decide), hevcChecks_count _ _ _ _ _ (by decide) (by decide) (by decide),
      hdrCheck_count _ _ _ _ _ _ (by decide) (by decide) (by decide),
      fourKCheck_count _ _ _ (by decide),
      gamepadWarning_count _ _ (by decide)]
  omega

/-- Total audioUnavailable warnings come only from the audio block. -/
theorem count_audioUnavail_eq (prefs : StreamingPreferences) (comp : NvComputer) (app : NvApp)
    (env : ProbeEnv) (cfg0 : StreamConfig) :
    (validateLaunch prefs comp app env cfg0).warnings.count Warning.audioUnavailable
      = (audioCheck env (fourKCheck comp (hdrCheck prefs comp app env
          (hevcChecks prefs comp env cfg0).1).1).1).2.2.count Warning.audioUnavailable := by
  simp only [validateLaunch, List.count_append]
  rw [softwareDecodingWarning_count _ _ (by decide), fpsWarnings_count _ _ _ (by decide)
        (by decide), hevcChecks_count _ _ _ _ _ (by decide) (by decide) (by decide),
      hdrCheck_count _ _ _ _ _ _ (by decide) (by decide) (by decide),
      fourKCheck_count _ _ _ (by decide),
      gamepadWarning_count _ _ (by decide)]
  omega

/-- A GFE version starting with "3." is neither empty nor a 2.x
version. -/
theorem gfe3_not_legacy (v : List Char) (h : List.isPrefixOf ['3', '.'] v = true) :
    (v.isEmpty || List.isPrefixOf ['2', '.'] v) = false := by
  match v with
  | [] => simp [List.isPrefixOf] at h
  | c :: t =>
    simp only [List.isPrefixOf, Bool.and_eq_true, beq_iff_eq] at h
    obtain ⟨hc, -⟩ := h
    subst hc
    simp [List.isPrefixOf]

/-- The audio configuration of the final configuration comes from the
audio block. -/
theorem final_audioConfig_eq (prefs : StreamingPreferences) (comp : NvComputer) (app : NvApp)
    (env : ProbeEnv) (cfg0 : StreamConfig) :
    (validateLaunch prefs comp app env cfg0).config.audioConfiguration
      = (audioCheck env (fourKCheck comp (hdrCheck prefs comp app env
          (hevcChecks prefs comp env cfg0).1).1).1).1.audioConfiguration := rfl

/-- m_AudioDisabled comes from the audio block. -/
theorem final_audioDisabled_eq (prefs : StreamingPreferences) (comp : NvComputer) (app : NvApp)
    (env : ProbeEnv) (cfg0 : StreamConfig) :
    (validateLaunch prefs comp app env cfg0).audioDisabled
      = (audioCheck env (fourKCheck comp (hdrCheck prefs comp app env
          (hevcChecks prefs comp env cfg0).1).1).1).2.1 := rfl

/-- The width entering the 4K gate is the built width. -/
theorem fourK_input_width (prefs : StreamingPreferences) (comp : NvComputer) (app : NvApp)
    (env : ProbeEnv) (cfg0 : StreamConfig) :
    (hdrCheck prefs comp app env (hevcChecks prefs comp env cfg0).1).1.width = cfg0.width := by
  rw [hdrCheck_width, hevcChecks_width]

/-- The height entering the 4K gate is the built height. -/
theorem fourK_input_height (prefs : StreamingPreferences) (comp : NvComputer) (app : NvApp)
    (env : ProbeEnv) (cfg0 : StreamConfig) :
    (hdrCheck prefs comp app env (hevcChecks prefs comp env cfg0).1).1.height = cfg0.height := by
  rw [hdrCheck_height, hevcChecks_height]

/-- Transport of the Main10 probe result to the HDR block's input. -/
theorem hdr_input_probe (prefs : StreamingPreferences) (comp : NvComputer) (env : ProbeEnv)
    (cfg0 : StreamConfig) (b : Bool)
    (h : isHardwareDecodeAvailable env prefs.videoDecoderSelection VIDEO_FORMAT_H265_MAIN10
           cfg0.width cfg0.height cfg0.fps = b) :
    isHardwareDecodeAvailable env prefs.videoDecoderSelection VIDEO_FORMAT_H265_MAIN10
      (hevcChecks prefs comp env cfg0).1.width (hevcChecks prefs comp env cfg0).1.height
      (hevcChecks prefs comp env cfg0).1.fps = b := by
  rw [hevcChecks_width, hevcChecks_height, hevcChecks_fps]
  exact h

/-- Transport of an audio-test result to the audio block's input. -/
theorem audioStage_input_test (prefs : StreamingPreferences) (comp : NvComputer) (app : NvApp)
    (env : ProbeEnv) (cfg0 : StreamConfig) (b : Bool)
    (h : env.testAudio cfg0.audioConfiguration = b) :
    env.testAudio (fourKCheck comp (hdrCheck prefs comp app env
        (hevcChecks prefs comp env cfg0).1).1).1.audioConfiguration = b := by
  rw [cfg3_audioConfig]
  exact h

/-- Transport of an audio-configuration equation to the audio block's
input. -/
theorem audioStage_input_eq (prefs : StreamingPreferences) (comp : NvComputer) (app : NvApp)
    (env : ProbeEnv) (cfg0 : StreamConfig) (n : Nat) (h : cfg0.audioConfiguration = n) :
    (fourKCheck comp (hdrCheck prefs comp app env
        (hevcChecks prefs comp env cfg0).1).1).1.audioConfiguration = n := by
  rw [cfg3_audioConfig]
  exact h

/-- Transport of an audio-configuration disequation to the audio
block's input. -/
theorem audioStage_input_ne (prefs : StreamingPreferences) (comp : NvComputer) (app : NvApp)
    (env : ProbeEnv) (cfg0 : StreamConfig) (n : Nat) (h : cfg0.audioConfiguration ≠ n) :
    (fourKCheck comp (hdrCheck prefs comp app env
        (hevcChecks prefs comp env cfg0).1).1).1.audioConfiguration ≠ n := by
  rw [cfg3_audioConfig]
  exact h

/-- enableHdr entering the HDR block equals the built HDR request. -/
theorem cfg1_enableHdr (prefs : StreamingPreferences) (comp : NvComputer) (env : ProbeEnv)
    (rand : Nat → Nat) :
    (hevcChecks prefs comp env (buildStreamConfig prefs env rand)).1.enableHdr
      = (prefs.videoCodecConfig == VCC.forceHevcHdr) :=
  hevcChecks_enableHdr prefs comp env (buildStreamConfig prefs env rand)

/-- validateLaunch with HDR not requested: HDR stays off, no HDR
warnings. -/
theorem validateLaunch_hdr_off (prefs : StreamingPreferences) (comp : NvComputer) (app : NvApp)
    (env : ProbeEnv) (cfg0 : StreamConfig)
    (h : (hevcChecks prefs comp env cfg0).1.enableHdr = false) :
    (validateLaunch prefs comp app env cfg0).config.enableHdr = false ∧
    (validateLaunch prefs comp app env cfg0).warnings.count Warning.appNoHdr = 0 ∧
    (validateLaunch prefs comp app env cfg0).warnings.count Warning.hostGpuNoHdr = 0 ∧
    (validateLaunch prefs comp app env cfg0).warnings.count Warning.noMain10Decode = 0 := by
  have hq := hdrCheck_off prefs comp app env _ h
  refine ⟨?_, ?_, ?_, ?_⟩
  · rw [final_enableHdr_eq, hq]
    exact h
  · rw [count_appNoHdr_eq, hq]; rfl
  · rw [count_hostGpuNoHdr_eq, hq]; rfl
  · rw [count_noMain10_eq, hq]; rfl

/-- validateLaunch with HDR requested but no app HDR support. -/
theorem validateLaunch_hdr_appNoHdr (prefs : StreamingPreferences) (comp : NvComputer)
    (app : NvApp) (env : ProbeEnv) (cfg0 : StreamConfig)
    (h : (hevcChecks prefs comp env cfg0).1.enableHdr = true)
    (ha : app.hdrSupported = false) :
    (validateLaunch prefs comp app env cfg0).config.enableHdr = false ∧
    (validateLaunch prefs comp app env cfg0).warnings.count Warning.appNoHdr = 1 ∧
    (validateLaunch prefs comp app env cfg0).warnings.count Warning.hostGpuNoHdr = 0 ∧
    (validateLaunch prefs comp app env cfg0).warnings.count Warning.noMain10Decode = 0 := by
  have hq := hdrCheck_appNoHdr prefs comp app env _ h ha
  refine ⟨?_, ?_, ?_, ?_⟩
  · rw [final_enableHdr_eq, hq]
  · rw [count_appNoHdr_eq, hq]; rfl
  · rw [count_hostGpuNoHdr_eq, hq]; rfl
  · rw [count_noMain10_eq, hq]; rfl

/-- validateLaunch with HDR requested but no host GPU HDR bit. -/
theorem validateLaunch_hdr_hostNoHdr (prefs : StreamingPreferences) (comp : NvComputer)
    (app : NvApp) (env : ProbeEnv) (cfg0 : StreamConfig)
    (h : (hevcChecks prefs comp env cfg0).1.enableHdr = true)
    (ha : app.hdrSupported = true) (hb : comp.serverCodecModeSupport &&& 0x200 = 0) :
    (validateLaunch prefs comp app env cfg0).config.enableHdr = false ∧
    (validateLaunch prefs comp app env cfg0).warnings.count Warning.appNoHdr = 0 ∧
    (validateLaunch prefs comp app env cfg0).warnings.count Warning.hostGpuNoHdr = 1 ∧
    (validateLaunch prefs comp app env cfg0).warnings.count Warning.noMain10Decode = 0 := by
  have hq := hdrCheck_hostNoHdr prefs comp app env _ h ha hb
  refine ⟨?_, ?_, ?_, ?_⟩
  · rw [final_enableHdr_eq, hq]
  · rw [count_appNoHdr_eq, hq]; rfl
  · rw [count_hostGpuNoHdr_eq, hq]; rfl
  · rw [count_noMain10_eq, hq]; rfl

/-- validateLaunch with HDR requested but no Main10 hardware decode. -/
theorem validateLaunch_hdr_noMain10 (prefs : StreamingPreferences) (comp : NvComputer)
    (app : NvApp) (env : ProbeEnv) (cfg0 : StreamConfig)
    (h : (hevcChecks prefs comp env cfg0).1.enableHdr = true)
    (ha : app.hdrSupported = true) (hb : comp.serverCodecModeSupport &&& 0x200 ≠ 0)
    (hp : isHardwareDecodeAvailable env prefs.videoDecoderSelection VIDEO_FORMAT_H265_MAIN10
            cfg0.width cfg0.height cfg0.fps = false) :
    (validateLaunch prefs comp app env cfg0).config.enableHdr = false ∧
    (validateLaunch prefs comp app env cfg0).warnings.count Warning.appNoHdr = 0 ∧
    (validateLaunch prefs comp app env cfg0).warnings.count Warning.hostGpuNoHdr = 0 ∧
    (validateLaunch prefs comp app env cfg0).warnings.count Warning.noMain10Decode = 1 := by
  have hq := hdrCheck_noMain10 prefs comp app env _ h ha hb
    (hdr_input_probe prefs comp env cfg0 false hp)
  refine ⟨?_, ?_, ?_, ?_⟩
  · rw [final_enableHdr_eq, hq]
  · rw [count_appNoHdr_eq, hq]; rfl
  · rw [count_hostGpuNoHdr_eq, hq]; rfl
  · rw [count_noMain10_eq, hq]; rfl

/-- validateLaunch with every HDR criterion satisfied. -/
theorem validateLaunch_hdr_on (prefs : StreamingPreferences) (comp : NvComputer)
    (app : NvApp) (env : ProbeEnv) (cfg0 : StreamConfig)
    (h : (hevcChecks prefs comp env cfg0).1.enableHdr = true)
    (ha : app.hdrSupported = true) (hb : comp.serverCodecModeSupport &&& 0x200 ≠ 0)
    (hp : isHardwareDecodeAvailable env prefs.videoDecoderSelection VIDEO_FORMAT_H265_MAIN10
            cfg0.width cfg0.height cfg0.fps = true) :
    (validateLaunch prefs comp app env cfg0).config.enableHdr = true := by
  have hq := hdrCheck_on prefs comp app env _ h ha hb
    (hdr_input_probe prefs comp env cfg0 true hp)
  rw [final_enableHdr_eq, hq]

/-- validateLaunch on a legacy GFE host downgrades 4K to 1080p with
one warning. -/
theorem validateLaunch_fourK_legacy (prefs : StreamingPreferences) (comp : NvComputer)
    (app : NvApp) (env : ProbeEnv) (cfg0 : StreamConfig)
    (h : 3840 ≤ cfg0.width)
    (hg : (comp.gfeVersion.isEmpty || List.isPrefixOf ['2', '.'] comp.gfeVersion) = true) :
    (validateLaunch prefs comp app env cfg0).config.width = 1920 ∧
    (validateLaunch prefs comp app env cfg0).config.height = 1080 ∧
    (validateLaunch prefs comp app env cfg0).warnings.count Warning.need4kGfe3 = 1 := by
  have hw' : 3840 ≤ (hdrCheck prefs comp app env (hevcChecks prefs comp env cfg0).1).1.width := by
    rw [fourK_input_width]
    exact h
  have h4 := fourKCheck_legacy comp _ hw' hg
  refine ⟨?_, ?_, ?_⟩
  · rw [final_width_eq, h4]
  · rw [final_height_eq, h4]
  · rw [count_need4k_eq, h4]; rfl

/-- validateLaunch on a modern GFE host leaves 4K untouched with no
warning. -/
theorem validateLaunch_fourK_modern (prefs : StreamingPreferences) (comp : NvComputer)
    (app : NvApp) (env : ProbeEnv) (cfg0 : StreamConfig)
    (h : 3840 ≤ cfg0.width)
    (hg : (comp.gfeVersion.isEmpty || List.isPrefixOf ['2', '.'] comp.gfeVersion) = false) :
    (validateLaunch prefs comp app env cfg0).config.width = cfg0.width ∧
    (validateLaunch prefs comp app env cfg0).config.height = cfg0.height ∧
    (validateLaunch prefs comp app env cfg0).warnings.count Warning.need4kGfe3 = 0 := by
  have hw' : 3840 ≤ (hdrCheck prefs comp app env (hevcChecks prefs comp env cfg0).1).1.width := by
    rw [fourK_input_width]
    exact h
  have h4 := fourKCheck_modern comp _ hw' hg
  refine ⟨?_, ?_, ?_⟩
  · rw [final_width_eq, h4]
    exact fourK_input_width prefs comp app env cfg0
  · rw [final_height_eq, h4]
    exact fourK_input_height prefs comp app env cfg0
  · rw [count_need4k_eq, h4]; rfl

/-- validateLaunch when the first audio probe passes. -/
theorem validateLaunch_audio_pass (prefs : StreamingPreferences) (comp : NvComputer)
    (app : NvApp) (env : ProbeEnv) (cfg0 : StreamConfig)
    (h : env.testAudio cfg0.audioConfiguration = true) :
    (validateLaunch prefs comp app env cfg0).config.audioConfiguration
      = cfg0.audioConfiguration ∧
    (validateLaunch prefs comp app env cfg0).audioDisabled = false ∧
    (validateLaunch prefs comp app env cfg0).warnings.count Warning.surroundUnsupported = 0 ∧
    (validateLaunch prefs comp app env cfg0).warnings.count Warning.audioUnavailable = 0 := by
  have hq := audioCheck_pass env _ (audioStage_input_test prefs comp app env cfg0 true h)
  refine ⟨?_, ?_, ?_, ?_⟩
  · rw [final_audioConfig_eq, hq]
    exact cfg3_audioConfig prefs comp app env cfg0
  · rw [final_audioDisabled_eq, hq]
  · rw [count_surround_eq, hq]; rfl
  · rw [count_audioUnavail_eq, hq]; rfl

/-- validateLaunch when 5.1 fails and the stereo retry passes. -/
theorem validateLaunch_audio_surround_ok (prefs : StreamingPreferences) (comp : NvComputer)
    (app : NvApp) (env : ProbeEnv) (cfg0 : StreamConfig)
    (h : env.testAudio cfg0.audioConfiguration = false)
    (hs : cfg0.audioConfiguration = AUDIO_CONFIGURATION_51_SURROUND)
    (hr : env.testAudio AUDIO_CONFIGURATION_STEREO = true) :
    (validateLaunch prefs comp app env cfg0).config.audioConfiguration
      = AUDIO_CONFIGURATION_STEREO ∧
    (validateLaunch prefs comp app env cfg0).audioDisabled = false ∧
    (validateLaunch prefs comp app env cfg0).warnings.count Warning.surroundUnsupported = 1 ∧
    (validateLaunch prefs comp app env cfg0).warnings.count Warning.audioUnavailable = 0 := by
  have hq := audioCheck_surround_retry_ok env _
    (audioStage_input_test prefs comp app env cfg0 false h)
    (audioStage_input_eq prefs comp app env cfg0 _ hs) hr
  refine ⟨?_, ?_, ?_, ?_⟩
  · rw [final_audioConfig_eq, hq]
  · rw [final_audioDisabled_eq, hq]
  · rw [count_surround_eq, hq]; rfl
  · rw [count_audioUnavail_eq, hq]; rfl

/-- validateLaunch when 5.1 fails and the stereo retry also fails. -/
theorem validateLaunch_audio_surround_fail (prefs : StreamingPreferences) (comp : NvComputer)
    (app : NvApp) (env : ProbeEnv) (cfg0 : StreamConfig)
    (h : env.testAudio cfg0.audioConfiguration = false)
    (hs : cfg0.audioConfiguration = AUDIO_CONFIGURATION_51_SURROUND)
    (hr : env.testAudio AUDIO_CONFIGURATION_STEREO = false) :
    (validateLaunch prefs comp app env cfg0).audioDisabled = true ∧
    (validateLaunch prefs comp app env cfg0).warnings.count Warning.surroundUnsupported = 0 ∧
    (validateLaunch prefs comp app env cfg0).warnings.count Warning.audioUnavailable = 1 := by
  have hq := audioCheck_surround_retry_fail env _
    (audioStage_input_test prefs comp app env cfg0 false h)
    (audioStage_input_eq prefs comp app env cfg0 _ hs) hr
  refine ⟨?_, ?_, ?_⟩
  · rw [final_audioDisabled_eq, hq]
  · rw [count_surround_eq, hq]; rfl
  · rw [count_audioUnavail_eq, hq]; rfl

/-- validateLaunch when a non-5.1 audio configuration fails. -/
theorem validateLaunch_audio_no_retry (prefs : StreamingPreferences) (comp : NvComputer)
    (app : NvApp) (env : ProbeEnv) (cfg0 : StreamConfig)
    (h : env.testAudio cfg0.audioConfiguration = false)
    (hs : cfg0.audioConfiguration ≠ AUDIO_CONFIGURATION_51_SURROUND) :
    (validateLaunch prefs comp app env cfg0).audioDisabled = true ∧
    (validateLaunch prefs comp app env cfg0).warnings.count Warning.surroundUnsupported = 0 ∧
    (validateLaunch prefs comp app env cfg0).warnings.count Warning.audioUnavailable = 1 := by
  have hq := audioCheck_fail_no_retry env _
    (audioStage_input_test prefs comp app env cfg0 false h)
    (audioStage_input_ne prefs comp app env cfg0 _ hs)
  refine ⟨?_, ?_, ?_⟩
  · rw [final_audioDisabled_eq, hq]
  · rw [count_surround_eq, hq]; rfl
  · rw [count_audioUnavail_eq, hq]; rfl

/-! Claim theorems. -/

/-- C1: Session::drSubmitDecodeUnit returns DR_OK without touching any
state when the decoder try-lock fails; with the lock acquired it clears
m_NeedsIdr and returns DR_NEED_IDR when the flag was set, forwards the
unit to an installed decoder and returns the decoder's result, or
returns DR_OK when no decoder is installed; every successful try-lock
is paired with an unlock, and the no-op result is distinct from the
need-keyframe result. -/
theorem drSubmitDecodeUnit_contract (s : DecoderHotSwapState) (du : Nat) :
    (s.decoderLockHeldElsewhere = true →
       drSubmitDecodeUnit s du = ⟨DR_OK, s, false⟩) ∧
    (s.decoderLockHeldElsewhere = false → s.needsIdr = true →
       drSubmitDecodeUnit s du = ⟨DR_NEED_IDR, { s with needsIdr := false }, false⟩) ∧
    (∀ dec, s.decoderLockHeldElsewhere = false → s.needsIdr = false →
       s.videoDecoder = some dec →
       drSubmitDecodeUnit s du = ⟨dec du, s, true⟩) ∧
    (s.decoderLockHeldElsewhere = false → s.needsIdr = false → s.videoDecoder = none →
       drSubmitDecodeUnit s du = ⟨DR_OK, s, false⟩) ∧
    (drSubmitLockTrace s).count DecoderLockEvent.tryLockOk
      = (drSubmitLockTrace s).count DecoderLockEvent.unlock ∧
    DR_OK ≠ DR_NEED_IDR := by
  refine ⟨?_, ?_, ?_, ?_, ?_, by decide⟩
  · intro hlock
    simp [drSubmitDecodeUnit, hlock]
  · intro hlock hidr
    simp [drSubmitDecodeUnit, hlock, hidr]
  · intro dec hlock hidr hdec
    simp [drSubmitDecodeUnit, hlock, hidr, hdec]
  · intro hlock hidr hdec
    simp [drSubmitDecodeUnit, hlock, hidr, hdec]
  · by_cases hlock : s.decoderLockHeldElsewhere <;> simp [drSubmitLockTrace, hlock]

/-- C1 witness: the try-lock-failure case at a concrete state. -/
theorem drSubmitDecodeUnit_contract_witness :
    (⟨true, false, none⟩ : DecoderHotSwapState).decoderLockHeldElsewhere = true ∧
    drSubmitDecodeUnit ⟨true, false, none⟩ 0 = ⟨DR_OK, ⟨true, false, none⟩, false⟩ :=
  ⟨rfl, (drSubmitDecodeUnit_contract ⟨true, false, none⟩ 0).1 rfl⟩

/-- C2: the admission transition system keeps at most one session
transport-active at every reachable instant; every exec path acquires
the admission semaphore exactly when it schedules the deferred cleanup
task whose destruction is the single release point; and that destructor
clears the process-wide active-session reference and releases exactly
one token. -/
theorem single_active_session :
    (∀ s, AdmissionReachable s → s.tokens + s.active.length = 1) ∧
    (∀ s, AdmissionReachable s → s.active.length ≤ 1) ∧
    (∀ p, acquiresAdmission p = schedulesCleanupTask p) ∧
    (∀ g, (deferredCleanupDestroy g).activeSession = none ∧
          (deferredCleanupDestroy g).semaphoreTokens = g.semaphoreTokens + 1) := by
  refine ⟨admission_token_invariant, ?_, ?_, ?_⟩
  · intro s hs
    have := admission_token_invariant s hs
    omega
  · intro p
    cases p <;> rfl
  · intro g
    exact ⟨rfl, rfl⟩

/-- C2 witness: the invariant at the initial state, the path equation
at a concrete path, and the destructor effect at a concrete slot. -/
theorem single_active_session_witness :
    initialAdmission.active.length ≤ 1 ∧
    acquiresAdmission ExecPath.transportStartFailure
      = schedulesCleanupTask ExecPath.transportStartFailure ∧
    (deferredCleanupDestroy ⟨some 5, 0⟩).activeSession = none :=
  ⟨single_active_session.2.1 initialAdmission AdmissionReachable.init,
   single_active_session.2.2.1 ExecPath.transportStartFailure,
   (single_active_session.2.2.2 ⟨some 5, 0⟩).1⟩

/-- C6: the rumble callback uses the same spinlock as input-handler
teardown; it forwards the parameters to an installed handler, is a
silent no-op when the handler slot is empty, in particular after
teardown, and both critical sections release every lock they acquire,
so neither holds the spinlock indefinitely. -/
theorem clRumble_contract :
    clRumbleLockUsed = inputTeardownLockUsed ∧
    (∀ s h c lo hi, s.inputHandler = some h →
       clRumble s c lo hi = ⟨some (h, c, lo, hi), s⟩) ∧
    (∀ s c lo hi, s.inputHandler = none → clRumble s c lo hi = ⟨none, s⟩) ∧
    (∀ s c lo hi, clRumble (inputHandlerTeardown s) c lo hi = ⟨none, ⟨none⟩⟩) ∧
    (∀ l, clRumbleTrace.count (SpinLockEvent.lockAcquire l)
            = clRumbleTrace.count (SpinLockEvent.lockRelease l) ∧
          inputTeardownTrace.count (SpinLockEvent.lockAcquire l)
            = inputTeardownTrace.count (SpinLockEvent.lockRelease l)) := by
  refine ⟨rfl, ?_, ?_, ?_, ?_⟩
  · intro s h c lo hi hs
    simp [clRumble, hs]
  · intro s c lo hi hs
    simp [clRumble, hs]
  · intro s c lo hi
    rfl
  · intro l
    cases l <;> exact ⟨rfl, rfl⟩

/-- C6 witness: a rumble after teardown at concrete values is a no-op. -/
theorem clRumble_contract_witness :
    (⟨some 3⟩ : InputHandlerSlot).inputHandler = some 3 ∧
    clRumble ⟨some 3⟩ 0 10 20 = ⟨some (3, 0, 10, 20), ⟨some 3⟩⟩ ∧
    clRumble (inputHandlerTeardown ⟨some 3⟩) 0 10 20 = ⟨none, ⟨none⟩⟩ :=
  ⟨rfl, clRumble_contract.2.1 ⟨some 3⟩ 3 0 10 20 rfl,
   clRumble_contract.2.2.2.1 ⟨some 3⟩ 0 10 20⟩

/-- C9: m_UnexpectedTermination is initialized to true by the
constructor and cleared only on the path that started the transport and
created the streaming window; hence on every path that aborts before
streaming begins the flag is still true at cleanup time, no remote quit
is issued, quitStarting is not emitted, and exactly one plain
session-finished notification is emitted. -/
theorem unexpected_termination_lifecycle :
    sessionConstructorUnexpectedTermination = true ∧
    (∀ p, clearsUnexpectedTermination p = true →
       transportStartSucceeded p = true ∧ streamWindowCreated p = true) ∧
    (∀ p connErr quitPref, isPreStreamingFailure p = true →
       unexpectedAtCleanup p connErr = true ∧
       execNotifications p quitPref connErr =
         { quitStartingEmitted := false, sessionFinishedCount := 1, quitAppIssued := false }) := by
  refine ⟨rfl, ?_, ?_⟩
  · intro p hp
    cases p <;> simp_all [clearsUnexpectedTermination, transportStartSucceeded,
      streamWindowCreated]
  · intro p connErr quitPref hp
    cases p <;> simp_all [isPreStreamingFailure, unexpectedAtCleanup,
      clearsUnexpectedTermination, sessionConstructorUnexpectedTermination,
      execNotifications, deferredCleanupRun]

/-- C9 witness: the transport-start-failure path at concrete flags. -/
theorem unexpected_termination_lifecycle_witness :
    isPreStreamingFailure ExecPath.transportStartFailure = true ∧
    unexpectedAtCleanup ExecPath.transportStartFailure false = true ∧
    execNotifications ExecPath.transportStartFailure true false =
      { quitStartingEmitted := false, sessionFinishedCount := 1, quitAppIssued := false } :=
  ⟨rfl,
   (unexpected_termination_lifecycle.2.2 ExecPath.transportStartFailure false true rfl).1,
   (unexpected_termination_lifecycle.2.2 ExecPath.transportStartFailure false true rfl).2⟩

/-- C10: when every candidate decoder fails to initialize,
getDecoderCapabilities returns 0 — the same value produced by a
successfully probed decoder whose capability bitmask is empty — and the
value is OR-ed into the video-callback capabilities identically in both
cases. -/
theorem getDecoderCapabilities_probe_failure (cands : List DecoderCandidate)
    (d : DecoderCandidate) (cpu : Nat)
    (hfail : ∀ c ∈ cands, c.initOk = false) (hd : d.initOk = true) (hcaps : d.caps = 0) :
    getDecoderCapabilities cands = 0 ∧
    getDecoderCapabilities cands = getDecoderCapabilities [d] ∧
    videoCapabilitiesAfterProbe cpu cands = videoCapabilitiesAfterProbe cpu [d] ∧
    videoCapabilitiesAfterProbe cpu cands
      = baseVideoCapabilities cpu ||| getDecoderCapabilities cands := by
  have hnone : chooseDecoder cands = none := by
    apply List.find?_eq_none.mpr
    intro c hc
    simp [hfail c hc]
  have h1 : getDecoderCapabilities cands = 0 := by
    simp [getDecoderCapabilities, hnone]
  have h2 : getDecoderCapabilities [d] = 0 := by
    simp [getDecoderCapabilities, chooseDecoder, List.find?, hd, hcaps]
  refine ⟨h1, by rw [h1, h2], ?_, rfl⟩
  simp [videoCapabilitiesAfterProbe, h1, h2]

/-- C10 witness: a single always-failing candidate versus a succeeding
candidate with an empty capability bitmask. -/
theorem getDecoderCapabilities_probe_failure_witness :
    (∀ c ∈ [(⟨false, false, 7⟩ : DecoderCandidate)], c.initOk = false) ∧
    (⟨true, true, 0⟩ : DecoderCandidate).initOk = true ∧
    (⟨true, true, 0⟩ : DecoderCandidate).caps = 0 ∧
    getDecoderCapabilities [⟨false, false, 7⟩] = 0 ∧
    videoCapabilitiesAfterProbe 4 [⟨false, false, 7⟩]
      = videoCapabilitiesAfterProbe 4 [⟨true, true, 0⟩] :=
  ⟨by decide, rfl, rfl,
   (getDecoderCapabilities_probe_failure [⟨false, false, 7⟩] ⟨true, true, 0⟩ 4
      (by decide) rfl rfl).1,
   (getDecoderCapabilities_probe_failure [⟨false, false, 7⟩] ⟨true, true, 0⟩ 4
      (by decide) rfl rfl).2.2.1⟩

/-- C3: after validation, HDR is enabled iff the codec mode is the
HDR-forcing mode, the app advertises HDR, the host GPU capability
bitmask has bit 0x200 set, and the 10-bit HEVC hardware-decode probe
succeeds at the configured width, height and fps; under the HDR-forcing
mode, each single failing criterion leaves HDR disabled with exactly
the one corresponding warning. -/
theorem hdr_enabled_iff (prefs : StreamingPreferences) (comp : NvComputer) (app : NvApp)
    (env : ProbeEnv) (rand : Nat → Nat) (vr : ValidateResult)
    (hvr : vr = validateLaunch prefs comp app env (buildStreamConfig prefs env rand)) :
    (vr.config.enableHdr = true ↔
       (prefs.videoCodecConfig = VCC.forceHevcHdr ∧ app.hdrSupported = true ∧
        comp.serverCodecModeSupport &&& 0x200 ≠ 0 ∧
        isHardwareDecodeAvailable env prefs.videoDecoderSelection VIDEO_FORMAT_H265_MAIN10
          prefs.width prefs.height prefs.fps = true)) ∧
    (prefs.videoCodecConfig = VCC.forceHevcHdr → app.hdrSupported = false →
       vr.config.enableHdr = false ∧ vr.warnings.count Warning.appNoHdr = 1 ∧
       vr.warnings.count Warning.hostGpuNoHdr = 0 ∧
       vr.warnings.count Warning.noMain10Decode = 0) ∧
    (prefs.videoCodecConfig = VCC.forceHevcHdr → app.hdrSupported = true →
       comp.serverCodecModeSupport &&& 0x200 = 0 →
       vr.config.enableHdr = false ∧ vr.warnings.count Warning.appNoHdr = 0 ∧
       vr.warnings.count Warning.hostGpuNoHdr = 1 ∧
       vr.warnings.count Warning.noMain10Decode = 0) ∧
    (prefs.videoCodecConfig = VCC.forceHevcHdr → app.hdrSupported = true →
       comp.serverCodecModeSupport &&& 0x200 ≠ 0 →
       isHardwareDecodeAvailable env prefs.videoDecoderSelection VIDEO_FORMAT_H265_MAIN10
         prefs.width prefs.height prefs.fps = false →
       vr.config.enableHdr = false ∧ vr.warnings.count Warning.appNoHdr = 0 ∧
       vr.warnings.count Warning.hostGpuNoHdr = 0 ∧
       vr.warnings.count Warning.noMain10Decode = 1) := by
  subst hvr
  by_cases hc : prefs.videoCodecConfig = VCC.forceHevcHdr
  · have hE1 : (hevcChecks prefs comp env (buildStreamConfig prefs env rand)).1.enableHdr
        = true := by
      rw [cfg1_enableHdr]
      simp [hc]
    rcases Bool.eq_false_or_eq_true app.hdrSupported with ha | ha
    · by_cases hb : comp.serverCodecModeSupport &&& 0x200 = 0
      · obtain ⟨e0, k1, k2, k3⟩ := validateLaunch_hdr_hostNoHdr prefs comp app env _ hE1 ha hb
        refine ⟨?_, ?_, ?_, ?_⟩
        · rw [e0]
          simp [hb]
        · intro _ ha'
          simp [ha] at ha'
        · intro _ _ _
          exact ⟨e0, k1, k2, k3⟩
        · intro _ _ hb' _
          exact absurd hb hb'
      · rcases Bool.eq_false_or_eq_true (isHardwareDecodeAvailable env
            prefs.videoDecoderSelection VIDEO_FORMAT_H265_MAIN10 prefs.width prefs.height
            prefs.fps) with hp | hp
        · have hp0 : isHardwareDecodeAvailable env prefs.videoDecoderSelection
              VIDEO_FORMAT_H265_MAIN10 (buildStreamConfig prefs env rand).width
              (buildStreamConfig prefs env rand).height
              (buildStreamConfig prefs env rand).fps = true := hp
          have e1 := validateLaunch_hdr_on prefs comp app env _ hE1 ha hb hp0
          refine ⟨?_, ?_, ?_, ?_⟩
          · rw [e1]
            simp [hc, ha, hb, hp]
          · intro _ ha'
            simp [ha] at ha'
          · intro _ _ hb'
            exact absurd hb' hb
          · intro _ _ _ hp'
            simp [hp] at hp'
        · have hp0 : isHardwareDecodeAvailable env prefs.videoDecoderSelection
              VIDEO_FORMAT_H265_MAIN10 (buildStreamConfig prefs env rand).width
              (buildStreamConfig prefs env rand).height
              (buildStreamConfig prefs env rand).fps = false := hp
          obtain ⟨e0, k1, k2, k3⟩ :=
            validateLaunch_hdr_noMain10 prefs comp app env _ hE1 ha hb hp0
          refine ⟨?_, ?_, ?_, ?_⟩
          · rw [e0]
            simp [hp]
          · intro _ ha'
            simp [ha] at ha'
          · intro _ _ hb'
            exact absurd hb' hb
          · intro _ _ _ _
            exact ⟨e0, k1, k2, k3⟩
    · obtain ⟨e0, k1, k2, k3⟩ := validateLaunch_hdr_appNoHdr prefs comp app env _ hE1 ha
      refine ⟨?_, ?_, ?_, ?_⟩
      · rw [e0]
        simp [ha]
      · intro _ _
        exact ⟨e0, k1, k2, k3⟩
      · intro _ ha' _
        simp [ha] at ha'
      · intro _ ha' _ _
        simp [ha] at ha'
  · have hE0 : (hevcChecks prefs comp env (buildStreamConfig prefs env rand)).1.enableHdr
        = false := by
      rw [cfg1_enableHdr]
      simp [hc]
    obtain ⟨e0, -, -, -⟩ := validateLaunch_hdr_off prefs comp app env _ hE0
    refine ⟨?_, ?_, ?_, ?_⟩
    · rw [e0]
      simp [hc]
    · intro h'
      exact absurd h' hc
    · intro h'
      exact absurd h' hc
    · intro h'
      exact absurd h' hc

/-- C3 witness: HDR forced while the app lacks HDR support: HDR ends
disabled with exactly the app warning. -/
theorem hdr_enabled_iff_witness :
    (prefsEx VDS.auto VCC.forceHevcHdr AC.stereo).videoCodecConfig = VCC.forceHevcHdr ∧
    (⟨false⟩ : NvApp).hdrSupported = false ∧
    (vrHdrEx.config.enableHdr = false ∧
     vrHdrEx.warnings.count Warning.appNoHdr = 1 ∧
     vrHdrEx.warnings.count Warning.hostGpuNoHdr = 0 ∧
     vrHdrEx.warnings.count Warning.noMain10Decode = 0) :=
  ⟨rfl, rfl, (hdr_enabled_iff (prefsEx VDS.auto VCC.forceHevcHdr AC.stereo) (compEx ['3', '.'])
      ⟨false⟩ (envEx [⟨true, true, 0⟩] (fun _ => true)) (fun _ => 0) vrHdrEx rfl).2.1 rfl rfl⟩

/-- C4: forced hardware decoding with a failing hardware-decode probe
at the final negotiated format (HEVC if still enabled, else H.264) and
the final width/height/fps makes validation fail with a blocking error
rather than a warning; the error differs between automatic and explicit
codec choice, and the validation-failure path never reaches the
transport start call. -/
theorem forced_hw_fatal (prefs : StreamingPreferences) (comp : NvComputer) (app : NvApp)
    (env : ProbeEnv) (rand : Nat → Nat) (vr : ValidateResult)
    (hvr : vr = validateLaunch prefs comp app env (buildStreamConfig prefs env rand))
    (hvds : prefs.videoDecoderSelection = VDS.forceHardware)
    (hprobe : isHardwareDecodeAvailable env prefs.videoDecoderSelection
        (if vr.config.supportsHevc then VIDEO_FORMAT_H265 else VIDEO_FORMAT_H264)
        vr.config.width vr.config.height vr.config.fps = false) :
    vr.ok = false ∧
    vr.error = some (if prefs.videoCodecConfig = VCC.auto then LaunchError.forceHwNoHwSupport
        else LaunchError.forceHwCodecIncompatible) ∧
    LaunchError.forceHwNoHwSupport ≠ LaunchError.forceHwCodecIncompatible ∧
    callsStartConnection ExecPath.preValidationFailure = false := by
  have herrEq : vr.error = forcedHwCheck prefs env vr.config := by
    rw [hvr]
    rfl
  have herr : vr.error = some (if prefs.videoCodecConfig = VCC.auto then
      LaunchError.forceHwNoHwSupport else LaunchError.forceHwCodecIncompatible) := by
    rw [herrEq]
    unfold forcedHwCheck
    rw [if_pos ⟨hvds, hprobe⟩]
    by_cases hvcc : prefs.videoCodecConfig = VCC.auto <;> simp [hvcc]
  have hok : vr.ok = false := by
    have hiso : vr.ok = vr.error.isNone := by
      rw [hvr]
      rfl
    rw [hiso, herr]
    rfl
  exact ⟨hok, herr, by decide, rfl⟩

/-- C4 witness: forced hardware decoding with no decoder candidate at
all fails validation with the automatic-choice error. -/
theorem forced_hw_fatal_witness :
    (prefsEx VDS.forceHardware VCC.auto AC.stereo).videoDecoderSelection = VDS.forceHardware ∧
    vrForcedHwEx.ok = false ∧
    vrForcedHwEx.error = some LaunchError.forceHwNoHwSupport :=
  ⟨rfl,
   (forced_hw_fatal (prefsEx VDS.forceHardware VCC.auto AC.stereo) (compEx ['3', '.']) ⟨true⟩
      (envEx [] (fun _ => true)) (fun _ => 0) vrForcedHwEx rfl rfl rfl).1,
   (forced_hw_fatal (prefsEx VDS.forceHardware VCC.auto AC.stereo) (compEx ['3', '.']) ⟨true⟩
      (envEx [] (fun _ => true)) (fun _ => 0) vrForcedHwEx rfl rfl rfl).2.1⟩

/-- C5: for a configured width of at least 3840, validation downgrades
to exactly 1920x1080 with one warning iff the host's reported software
version is empty or begins with "2."; a version beginning with "3."
never downgrades. -/
theorem fourK_gating (prefs : StreamingPreferences) (comp : NvComputer) (app : NvApp)
    (env : ProbeEnv) (rand : Nat → Nat) (vr : ValidateResult)
    (hvr : vr = validateLaunch prefs comp app env (buildStreamConfig prefs env rand))
    (hw4k : 3840 ≤ prefs.width) :
    ((vr.config.width = 1920 ∧ vr.config.height = 1080 ∧
        vr.warnings.count Warning.need4kGfe3 = 1)
       ↔ (comp.gfeVersion.isEmpty || List.isPrefixOf ['2', '.'] comp.gfeVersion) = true) ∧
    ((comp.gfeVersion.isEmpty || List.isPrefixOf ['2', '.'] comp.gfeVersion) = false →
       vr.config.width = prefs.width ∧ vr.config.height = prefs.height ∧
       vr.warnings.count Warning.need4kGfe3 = 0) ∧
    (List.isPrefixOf ['3', '.'] comp.gfeVersion = true →
       vr.config.width = prefs.width ∧ vr.warnings.count Warning.need4kGfe3 = 0) := by
  subst hvr
  have hw0 : 3840 ≤ (buildStreamConfig prefs env rand).width := hw4k
  refine ⟨?_, ?_, ?_⟩
  · by_cases hleg : (comp.gfeVersion.isEmpty || List.isPrefixOf ['2', '.'] comp.gfeVersion)
        = true
    · obtain ⟨w1, w2, w3⟩ := validateLaunch_fourK_legacy prefs comp app env _ hw0 hleg
      simp [w1, w2, w3, hleg]
    · have hlegf : (comp.gfeVersion.isEmpty || List.isPrefixOf ['2', '.'] comp.gfeVersion)
          = false := by
        rcases Bool.eq_false_or_eq_true (comp.gfeVersion.isEmpty
            || List.isPrefixOf ['2', '.'] comp.gfeVersion) with hx | hx
        · exact absurd hx hleg
        · exact hx
      obtain ⟨w1, -, -⟩ := validateLaunch_fourK_modern prefs comp app env _ hw0 hlegf
      constructor
      · rintro ⟨h1, -, -⟩
        rw [w1] at h1
        have h2 : prefs.width = 1920 := h1
        omega
      · intro hx
        exact absurd hx hleg
  · intro hlegf
    obtain ⟨w1, w2, w3⟩ := validateLaunch_fourK_modern prefs comp app env _ hw0 hlegf
    exact ⟨w1, w2, w3⟩
  · intro h3
    obtain ⟨w1, -, w3⟩ := validateLaunch_fourK_modern prefs comp app env _ hw0
      (gfe3_not_legacy comp.gfeVersion h3)
    exact ⟨w1, w3⟩

/-- C5 witness: a 4K request against GFE "3." is not downgraded and
gets no 4K warning. -/
theorem fourK_gating_witness :
    3840 ≤ (prefsEx VDS.auto VCC.auto AC.stereo).width ∧
    (((compEx ['3', '.']).gfeVersion.isEmpty
        || List.isPrefixOf ['2', '.'] (compEx ['3', '.']).gfeVersion) = false) ∧
    (vrFourKEx.config.width = (prefsEx VDS.auto VCC.auto AC.stereo).width ∧
     vrFourKEx.config.height = (prefsEx VDS.auto VCC.auto AC.stereo).height ∧
     vrFourKEx.warnings.count Warning.need4kGfe3 = 0) :=
  ⟨by decide, by decide,
   (fourK_gating (prefsEx VDS.auto VCC.auto AC.stereo) (compEx ['3', '.']) ⟨true⟩
      (envEx [⟨true, true, 0⟩] (fun _ => true)) (fun _ => 0) vrFourKEx rfl
      (by decide)).2.1 (by decide)⟩

/-- C7: building the stream configuration twice from the same
preferences, probe environment and host data yields identical values
for every field except the encryption key and IV; the key equals the
16 drawn bytes and the IV's first 4 bytes equal the next 4 drawn bytes
(so different draws give different keys/IVs), and only the first 4 IV
bytes are ever populated. -/
theorem streamConfig_rebuild (prefs : StreamingPreferences) (env : ProbeEnv)
    (r1 r2 : Nat → Nat) :
    (buildStreamConfig prefs env r1).width = (buildStreamConfig prefs env r2).width ∧
    (buildStreamConfig prefs env r1).height = (buildStreamConfig prefs env r2).height ∧
    (buildStreamConfig prefs env r1).fps = (buildStreamConfig prefs env r2).fps ∧
    (buildStreamConfig prefs env r1).bitrate = (buildStreamConfig prefs env r2).bitrate ∧
    (buildStreamConfig prefs env r1).packetSize = (buildStreamConfig prefs env r2).packetSize ∧
    (buildStreamConfig prefs env r1).hevcBitratePercentageMultiplier
      = (buildStreamConfig prefs env r2).hevcBitratePercentageMultiplier ∧
    (buildStreamConfig prefs env r1).streamingRemotely
      = (buildStreamConfig prefs env r2).streamingRemotely ∧
    (buildStreamConfig prefs env r1).audioConfiguration
      = (buildStreamConfig prefs env r2).audioConfiguration ∧
    (buildStreamConfig prefs env r1).supportsHevc
      = (buildStreamConfig prefs env r2).supportsHevc ∧
    (buildStreamConfig prefs env r1).enableHdr = (buildStreamConfig prefs env r2).enableHdr ∧
    ((buildStreamConfig prefs env r1).remoteInputAesKey
        = (buildStreamConfig prefs env r2).remoteInputAesKey ↔ ∀ i < 16, r1 i = r2 i) ∧
    ((buildStreamConfig prefs env r1).remoteInputAesIv
        = (buildStreamConfig prefs env r2).remoteInputAesIv
      ↔ ∀ i < 4, r1 (16 + i) = r2 (16 + i)) ∧
    List.drop 4 (buildStreamConfig prefs env r1).remoteInputAesIv = List.replicate 12 0 := by
  refine ⟨rfl, rfl, rfl, rfl, rfl, rfl, rfl, rfl, rfl, rfl, ?_, ?_, ?_⟩
  · simp only [buildStreamConfig]
    simp [List.map_eq_map_iff]
  · simp only [buildStreamConfig]
    simp [List.append_cancel_right_eq, List.map_eq_map_iff]
  · simp only [buildStreamConfig]
    rw [List.drop_left']
    simp

/-- C7 witness: two builds from distinct byte oracles agree on width
and their keys compare exactly as the drawn bytes do. -/
theorem streamConfig_rebuild_witness :
    (buildStreamConfig (prefsEx VDS.auto VCC.auto AC.stereo)
        (envEx [⟨true, true, 0⟩] (fun _ => true)) (fun _ => 0)).width
      = (buildStreamConfig (prefsEx VDS.auto VCC.auto AC.stereo)
          (envEx [⟨true, true, 0⟩] (fun _ => true)) (fun i => i)).width ∧
    ((buildStreamConfig (prefsEx VDS.auto VCC.auto AC.stereo)
        (envEx [⟨true, true, 0⟩] (fun _ => true)) (fun _ => 0)).remoteInputAesKey
      = (buildStreamConfig (prefsEx VDS.auto VCC.auto AC.stereo)
          (envEx [⟨true, true, 0⟩] (fun _ => true)) (fun i => i)).remoteInputAesKey
      ↔ ∀ i < 16, (fun _ => (0 : Nat)) i = (fun i => i) i) :=
  ⟨(streamConfig_rebuild (prefsEx VDS.auto VCC.auto AC.stereo)
      (envEx [⟨true, true, 0⟩] (fun _ => true)) (fun _ => 0) (fun i => i)).1,
   (streamConfig_rebuild (prefsEx VDS.auto VCC.auto AC.stereo)
      (envEx [⟨true, true, 0⟩] (fun _ => true)) (fun _ => 0)
      (fun i => i)).2.2.2.2.2.2.2.2.2.2.1⟩

/-- C8: the audio probe tries the configured layout; a failed 5.1 probe
retries stereo, degrading the configuration with one warning on
success; if no probe succeeds (a stereo failure gets no retry) the
audio-disabled flag is set with one warning; a passing first probe
leaves layout and flag untouched. -/
theorem audio_probe_fallback (prefs : StreamingPreferences) (comp : NvComputer) (app : NvApp)
    (env : ProbeEnv) (rand : Nat → Nat) (vr : ValidateResult)
    (hvr : vr = validateLaunch prefs comp app env (buildStreamConfig prefs env rand)) :
    (env.testAudio (audioConfigurationOf prefs.audioConfig) = true →
       vr.config.audioConfiguration = audioConfigurationOf prefs.audioConfig ∧
       vr.audioDisabled = false ∧
       vr.warnings.count Warning.surroundUnsupported = 0 ∧
       vr.warnings.count Warning.audioUnavailable = 0) ∧
    (env.testAudio (audioConfigurationOf prefs.audioConfig) = false →
     prefs.audioConfig = AC.surround51 →
     env.testAudio AUDIO_CONFIGURATION_STEREO = true →
       vr.config.audioConfiguration = AUDIO_CONFIGURATION_STEREO ∧
       vr.audioDisabled = false ∧
       vr.warnings.count Warning.surroundUnsupported = 1 ∧
       vr.warnings.count Warning.audioUnavailable = 0) ∧
    (env.testAudio (audioConfigurationOf prefs.audioConfig) = false →
     prefs.audioConfig = AC.stereo →
       vr.audioDisabled = true ∧
       vr.warnings.count Warning.surroundUnsupported = 0 ∧
       vr.warnings.count Warning.audioUnavailable = 1) ∧
    (env.testAudio (audioConfigurationOf prefs.audioConfig) = false →
     prefs.audioConfig = AC.surround51 →
     env.testAudio AUDIO_CONFIGURATION_STEREO = false →
       vr.audioDisabled = true ∧
       vr.warnings.count Warning.surroundUnsupported = 0 ∧
       vr.warnings.count Warning.audioUnavailable = 1) := by
  subst hvr
  refine ⟨?_, ?_, ?_, ?_⟩
  · intro ht
    exact validateLaunch_audio_pass prefs comp app env (buildStreamConfig prefs env rand) ht
  · intro ht hs hr
    have hs0 : (buildStreamConfig prefs env rand).audioConfiguration
        = AUDIO_CONFIGURATION_51_SURROUND := by
      show audioConfigurationOf prefs.audioConfig = AUDIO_CONFIGURATION_51_SURROUND
      rw [hs]
      rfl
    exact validateLaunch_audio_surround_ok prefs comp app env _ ht hs0 hr
  · intro ht hs
    have hs0 : (buildStreamConfig prefs env rand).audioConfiguration
        ≠ AUDIO_CONFIGURATION_51_SURROUND := by
      show audioConfigurationOf prefs.audioConfig ≠ AUDIO_CONFIGURATION_51_SURROUND
      rw [hs]
      decide
    exact validateLaunch_audio_no_retry prefs comp app env _ ht hs0
  · intro ht hs hr
    have hs0 : (buildStreamConfig prefs env rand).audioConfiguration
        = AUDIO_CONFIGURATION_51_SURROUND := by
      show audioConfigurationOf prefs.audioConfig = AUDIO_CONFIGURATION_51_SURROUND
      rw [hs]
      rfl
    exact validateLaunch_audio_surround_fail prefs comp app env _ ht hs0 hr

/-- C8 witness: 5.1 requested, only stereo opens: the configuration
degrades to stereo with exactly the surround warning. -/
theorem audio_probe_fallback_witness :
    (envEx [⟨true, true, 0⟩] (fun n => n == 0)).testAudio
      (audioConfigurationOf (prefsEx VDS.auto VCC.auto AC.surround51).audioConfig) = false ∧
    (prefsEx VDS.auto VCC.auto AC.surround51).audioConfig = AC.surround51 ∧
    (envEx [⟨true, true, 0⟩] (fun n => n == 0)).testAudio AUDIO_CONFIGURATION_STEREO = true ∧
    (vrAudioEx.config.audioConfiguration = AUDIO_CONFIGURATION_STEREO ∧
     vrAudioEx.audioDisabled = false ∧
     vrAudioEx.warnings.count Warning.surroundUnsupported = 1 ∧
     vrAudioEx.warnings.count Warning.audioUnavailable = 0) :=
  ⟨rfl, rfl, rfl,
   (audio_probe_fallback (prefsEx VDS.auto VCC.auto AC.surround51) (compEx ['3', '.']) ⟨true⟩
      (envEx [⟨true, true, 0⟩] (fun n => n == 0)) (fun _ => 0) vrAudioEx rfl).2.1 rfl rfl rfl⟩

end Moonlight
